import Mathlib

/-!
# keda-manager: the deployment patch chain and the pre-flight check

A shallow embedding of `pkg/reconciler/update_objects.go` and of the start-up
sequence of `main.go`, followed by theorems about them.

Conventions of the embedding

* A Go pointer that may be nil is an `Option`; a Go slice is a `List` (a nil
  slice and an empty slice are both `[]`).
* A `*unstructured.Unstructured` is an address (`Ptr`) into the object memory
  held by the `fsm`; writing through the pointer is `setObj`.
* A `stateFn` is a Go function value.  The function values that occur in the
  chain are listed by the inductive type `stateFn`; `call` runs one of them.
* A Go function returning `(stateFn, *ctrl.Result, error)` returns a `Ret`
  together with the machine after its side effects.
* `Machine.log` is a ghost history of the calls made to collaborators
  (deployment look-ups and `updateObj`); the code never reads it.
-/

namespace KedaManager

/-! ## Data model (`api/v1alpha1`, `corev1`, `unstructured`, `ctrl`) -/

/-- Go `error` value, identified by its message. -/
structure GoError where
  msg : String
deriving DecidableEq, Repr

/-- Operator logging options of the CR; the three fields are pointers in Go. -/
structure LoggingOperatorCfg where
  Level : Option String
  Format : Option String
  TimeEncoding : Option String
deriving DecidableEq, Repr

/-- Metrics-server logging options of the CR. -/
structure LoggingMetricsSrvCfg where
  Level : Option String
deriving DecidableEq, Repr

/-- Logging section of the CR spec: one optional block per workload. -/
structure LoggingCfg where
  Operator : Option LoggingOperatorCfg
  MetricsServer : Option LoggingMetricsSrvCfg
deriving DecidableEq, Repr

/-- Requests and limits of a container, as lists of resource name and quantity. -/
structure ResourceRequirements where
  Limits : List (String × String)
  Requests : List (String × String)
deriving DecidableEq, Repr

/-- Resources section of the CR spec: one optional block per workload. -/
structure Resources where
  Operator : Option ResourceRequirements
  MetricsServer : Option ResourceRequirements
deriving DecidableEq, Repr

/-- One declared environment variable. -/
structure NameValue where
  Name : String
  Value : String
deriving DecidableEq, Repr

/-- The ordered list of declared environment variables. -/
abbrev EnvVars := List NameValue

/-- The spec of the Keda CR, with the field shapes used by the controller test. -/
structure KedaSpec where
  Logging : Option LoggingCfg
  Resources : Option Resources
  Env : EnvVars
deriving DecidableEq, Repr

/-- State enum of the CR status. -/
inductive State where
  | Processing
  | Ready
  | Error
  | Deleting
deriving DecidableEq, Repr

/-- Status of a condition. -/
inductive ConditionStatus where
  | ConditionTrue
  | ConditionFalse
  | ConditionUnknown
deriving DecidableEq, Repr

/-- Condition types are string constants. -/
abbrev ConditionType := String

/-- Condition reasons are string constants. -/
abbrev ConditionReason := String

/-- Modelled from the spec: the constant `v1alpha1.ConditionTypeInstalled`, whose
declaration is not among the sources; the spec names the condition "Installed". -/
def ConditionTypeInstalled : ConditionType := "Installed"

/-- Modelled from the spec: the constant `v1alpha1.ConditionReasonDeploymentUpdateErr`,
whose declaration is not among the sources; the spec names the reason
"DeploymentUpdateErr". -/
def ConditionReasonDeploymentUpdateErr : ConditionReason := "DeploymentUpdateErr"

/-- A typed status entry of the CR. -/
structure Condition where
  Type_ : ConditionType
  Status : ConditionStatus
  Reason : ConditionReason
  Message : String
deriving DecidableEq, Repr

/-- Status of the CR: the state enum and the list of conditions. -/
structure Status where
  State : State
  Conditions : List Condition
deriving DecidableEq, Repr

/-- The custom resource. -/
structure Keda where
  Spec : KedaSpec
  Status : Status
deriving DecidableEq, Repr

/-- Modelled from the spec: conditions are keyed by their type, so setting a
condition replaces the entry of the same type, or appends it when there is none. -/
def setStatusCondition : List Condition → Condition → List Condition
  | [], c => [c]
  | x :: xs, c => if x.Type_ = c.Type_ then c :: xs else x :: setStatusCondition xs c

/-- Modelled from the spec: the method `(*Keda).UpdateStateFromErr`, which is not
among the sources.  It records the condition `c = False` with reason `r` and the
error text as message, and the state becomes `Error`. -/
def UpdateStateFromErr (k : Keda) (c : ConditionType) (r : ConditionReason) (err : GoError) :
    Keda :=
  { k with
    Status :=
      { State := State.Error
        Conditions :=
          setStatusCondition k.Status.Conditions
            ⟨c, ConditionStatus.ConditionFalse, r, err.msg⟩ } }

/-- The primary container of a workload: the three sub-trees the patchers address. -/
structure Container where
  Args : List String
  Resources : ResourceRequirements
  Env : List NameValue
deriving DecidableEq, Repr

/-- Modelled from the spec: an unstructured target object, reduced to its name and
the containers of its pod template. -/
structure Unstructured where
  Name : String
  Containers : List Container
deriving DecidableEq, Repr

/-- Address of an unstructured object. -/
abbrev Ptr := Nat

/-- Scheduler directive `ctrl.Result`. -/
structure Result where
  Requeue : Bool
  RequeueAfter : Nat
deriving DecidableEq, Repr

/-- An update function `func(T, R) error`, with `T` the target object: it yields the
target after the call and the error, if any.  A failing call may still have
written to the target. -/
abbrev UpdateFn (R : Type) := Unstructured → R → Unstructured × Option GoError

/-- The function values of type `stateFn` that occur in the chain.  The first three
are the top-level functions of those names; `sFnUpdateObject` is the closure
returned by `buildSfnUpdateObject`, with its captured variables. -/
inductive stateFn : Type 1 where
  | sFnUpdateKedaDeployment : stateFn
  | sFnUpdateMetricsServerDeployment : stateFn
  | sFnApply : stateFn
  | sFnUpdateObject (R : Type) (u : Ptr) (update : UpdateFn R)
      (getData : Option Keda → Option R) (next : stateFn) : stateFn

/-- The runtime handle: the memory of rendered objects. -/
structure fsm where
  Objs : Ptr → Unstructured

/-- The state of one reconciliation pass: the CR snapshot, held by value. -/
structure systemState where
  instance_ : Keda

/-- Ghost record of a call to a collaborator, with what it returned. -/
inductive Event : Type 1 where
  | kedaManagerDeployment (res : Except GoError Ptr) : Event
  | kedaMetricsServerDeployment (res : Except GoError Ptr) : Event
  | updateObj (R : Type) (u : Ptr) (update : UpdateFn R) (data : R) (err : Option GoError) : Event

/-- What a state function reads and writes, and the ghost history of calls. -/
structure Machine where
  r : fsm
  s : systemState
  log : List Event

/-- The triple `(stateFn, *ctrl.Result, error)` returned by a state function. -/
abbrev Ret := Option stateFn × Option Result × Option GoError

/-- The functions used by `update_objects.go` whose bodies are not among the sources. -/
structure Collab where
  kedaManagerDeployment : fsm → Except GoError Ptr
  kedaMetricsServerDeployment : fsm → Except GoError Ptr
  updateKedaOperatorContainer0Args : UpdateFn LoggingOperatorCfg
  updateKedaMetricsServerContainer0Args : UpdateFn LoggingMetricsSrvCfg
  updateKedaContanier0Resources : UpdateFn ResourceRequirements
  updateKedaContanierEnvs : UpdateFn EnvVars
  sFnApply : Machine → Ret × Machine

/-- Modelled from the spec: `switchState(next)` returns `(next, nil, nil)`. -/
def switchState (next : stateFn) : Ret := (some next, none, none)

/-- Modelled from the spec: `stopWithErrorAndRequeue(err)` is the terminal marker that
carries the error and asks the scheduler to retry. -/
def stopWithErrorAndRequeue (err : GoError) : Ret := (none, some ⟨true, 0⟩, some err)

/-- Modelled from the spec: `stopWithErrorAnNoRequeue(err)` is the terminal marker that
carries the error and tells the scheduler not to retry. -/
def stopWithErrorAnNoRequeue (err : GoError) : Ret := (none, some ⟨false, 0⟩, some err)

/-- Writing `o` through the pointer `u`. -/
def setObj (r : fsm) (u : Ptr) (o : Unstructured) : fsm :=
  ⟨fun p => if p = u then o else r.Objs p⟩

/-- Modelled from the spec: `updateObj(u, data, update)` calls the update function on
the target and the value, the target keeps what the function wrote, and the
error of the function is returned.  The call is entered in the ghost history. -/
def updateObj {R : Type} (u : Ptr) (data : R) (update : UpdateFn R) (m : Machine) :
    Option GoError × Machine :=
  let out := update (m.r.Objs u) data
  (out.2, ⟨setObj m.r u out.1, m.s, m.log ++ [Event.updateObj R u update data out.2]⟩)

/-! ## `update_objects.go` -/

/-- Function `buildSfnUpdateObject`: the closure over `u`, `update`, `getData`, `next`. -/
def buildSfnUpdateObject {R : Type} (u : Ptr) (update : UpdateFn R)
    (getData : Option Keda → Option R) (next : stateFn) : stateFn :=
  stateFn.sFnUpdateObject R u update getData next

/-- Body of the closure returned by `buildSfnUpdateObject` (lines 27-41). -/
def sFnUpdateObject {R : Type} (u : Ptr) (update : UpdateFn R)
    (getData : Option Keda → Option R) (next : stateFn) (m : Machine) : Ret × Machine :=
  match getData (some m.s.instance_) with
  | none => (switchState next, m)
  | some data =>
    match updateObj u data update m with
    | (some err, m1) =>
      (stopWithErrorAnNoRequeue err,
        ⟨m1.r,
          ⟨UpdateStateFromErr m1.s.instance_ ConditionTypeInstalled
            ConditionReasonDeploymentUpdateErr err⟩,
          m1.log⟩)
    | (none, m1) => (switchState next, m1)

/-- Function `loggingOperatorCfg` (lines 44-49). -/
def loggingOperatorCfg (k : Option Keda) : Option LoggingOperatorCfg :=
  match k with
  | some k =>
    match k.Spec.Logging with
    | some l => l.Operator
    | none => none
  | none => none

/-- Function `loggingMetricsSrvCfg` (lines 57-62). -/
def loggingMetricsSrvCfg (k : Option Keda) : Option LoggingMetricsSrvCfg :=
  match k with
  | some k =>
    match k.Spec.Logging with
    | some l => l.MetricsServer
    | none => none
  | none => none

/-- Function `operatorResources` (lines 69-74). -/
def operatorResources (k : Option Keda) : Option ResourceRequirements :=
  match k with
  | some k =>
    match k.Spec.Resources with
    | some rs => rs.Operator
    | none => none
  | none => none

/-- Function `metricsSvrResources` (lines 81-86). -/
def metricsSvrResources (k : Option Keda) : Option ResourceRequirements :=
  match k with
  | some k =>
    match k.Spec.Resources with
    | some rs => rs.MetricsServer
    | none => none
  | none => none

/-- Function `envVars` (lines 93-98): the address of the `Env` field, never nil for a CR. -/
def envVars (k : Option Keda) : Option EnvVars :=
  match k with
  | some k => some k.Spec.Env
  | none => none

/-- Function `buildSfnUpdateMetricsSvrEnvVars` (lines 104-106). -/
def buildSfnUpdateMetricsSvrEnvVars (env : Collab) (u : Ptr) : stateFn :=
  buildSfnUpdateObject u env.updateKedaContanierEnvs envVars stateFn.sFnApply

/-- Function `buildSfnUpdateMetricsSvrResources` (lines 88-91). -/
def buildSfnUpdateMetricsSvrResources (env : Collab) (u : Ptr) : stateFn :=
  let next := buildSfnUpdateMetricsSvrEnvVars env u
  buildSfnUpdateObject u env.updateKedaContanier0Resources metricsSvrResources next

/-- Function `buildSfnUpdateMetricsSvrLogging` (lines 64-67). -/
def buildSfnUpdateMetricsSvrLogging (env : Collab) (u : Ptr) : stateFn :=
  let next := buildSfnUpdateMetricsSvrResources env u
  buildSfnUpdateObject u env.updateKedaMetricsServerContainer0Args loggingMetricsSrvCfg next

/-- Function `buildSfnUpdateOperatorEnvs` (lines 100-102). -/
def buildSfnUpdateOperatorEnvs (env : Collab) (u : Ptr) : stateFn :=
  buildSfnUpdateObject u env.updateKedaContanierEnvs envVars
    stateFn.sFnUpdateMetricsServerDeployment

/-- Function `buildSfnUpdateOperatorResources` (lines 76-79). -/
def buildSfnUpdateOperatorResources (env : Collab) (u : Ptr) : stateFn :=
  let next := buildSfnUpdateOperatorEnvs env u
  buildSfnUpdateObject u env.updateKedaContanier0Resources operatorResources next

/-- Function `buildSfnUpdateOperatorLogging` (lines 51-55). -/
def buildSfnUpdateOperatorLogging (env : Collab) (u : Ptr) : stateFn :=
  let next := buildSfnUpdateOperatorResources env u
  buildSfnUpdateObject u env.updateKedaOperatorContainer0Args loggingOperatorCfg next

/-- Function `sFnUpdateKedaDeployment` (lines 12-24). -/
def sFnUpdateKedaDeployment (env : Collab) (m : Machine) : Ret × Machine :=
  let res := env.kedaManagerDeployment m.r
  let log := m.log ++ [Event.kedaManagerDeployment res]
  match res with
  | Except.error err =>
    (stopWithErrorAnNoRequeue err,
      ⟨m.r,
        ⟨UpdateStateFromErr m.s.instance_ ConditionTypeInstalled
          ConditionReasonDeploymentUpdateErr err⟩,
        log⟩)
  | Except.ok u =>
    let next := buildSfnUpdateOperatorLogging env u
    (switchState next, ⟨m.r, m.s, log⟩)

/-- Function `sFnUpdateMetricsServerDeployment` (lines 108-120). -/
def sFnUpdateMetricsServerDeployment (env : Collab) (m : Machine) : Ret × Machine :=
  let res := env.kedaMetricsServerDeployment m.r
  let log := m.log ++ [Event.kedaMetricsServerDeployment res]
  match res with
  | Except.error err =>
    (stopWithErrorAnNoRequeue err,
      ⟨m.r,
        ⟨UpdateStateFromErr m.s.instance_ ConditionTypeInstalled
          ConditionReasonDeploymentUpdateErr err⟩,
        log⟩)
  | Except.ok u =>
    let next := buildSfnUpdateMetricsSvrLogging env u
    (switchState next, ⟨m.r, m.s, log⟩)

/-- Calling a function value of type `stateFn`. -/
def call (env : Collab) : stateFn → Machine → Ret × Machine
  | stateFn.sFnUpdateKedaDeployment, m => sFnUpdateKedaDeployment env m
  | stateFn.sFnUpdateMetricsServerDeployment, m => sFnUpdateMetricsServerDeployment env m
  | stateFn.sFnApply, m => env.sFnApply m
  | stateFn.sFnUpdateObject _ u update getData next, m => sFnUpdateObject u update getData next m

/-- How a run of the patch chain ends. -/
inductive Outcome : Type 1 where
  | reachedApply (m : Machine) : Outcome
  | stopped (res : Option Result) (err : Option GoError) (m : Machine) : Outcome
  | outOfFuel (m : Machine) : Outcome

/-- Modelled from the spec: the engine invokes the current state again and again
until a state returns the terminal marker.  The run is followed up to the
hand-over to `sFnApply`, the first state whose body is outside this file. -/
def runChain (env : Collab) : Nat → stateFn → Machine → Outcome
  | 0, _, m => Outcome.outOfFuel m
  | _ + 1, stateFn.sFnApply, m => Outcome.reachedApply m
  | n + 1, st, m =>
    match call env st m with
    | ((some next, _, _), m1) => runChain env n next m1
    | ((none, res, err), m1) => Outcome.stopped res err m1

/-- The machine in which a run ended. -/
def Outcome.machine : Outcome → Machine
  | Outcome.reachedApply m => m
  | Outcome.stopped _ _ m => m
  | Outcome.outOfFuel m => m

/-! ## `main.go`, from the pre-flight check on (lines 75-158) -/

/-- What the calls made by `main` return.  `IsInstalled` returns a pair `(bool, error)`;
the other calls are represented by their error. -/
structure Outcomes where
  IsInstalled : Bool × Option GoError
  NewManager : Option GoError
  Open : Option GoError
  LoadData : Option GoError
  Build : Option GoError
  SetupWithManager : Option GoError
  AddHealthzCheck : Option GoError
  AddReadyzCheck : Option GoError
  Start : Option GoError

/-- The observable steps of `main`: calls to collaborators, log lines and `os.Exit`. -/
inductive Action where
  | IsInstalled
  | Error (msg : String)
  | Info (msg : String)
  | Exit (code : Nat)
  | NewManager
  | Open
  | LoadData
  | Build
  | NewKedaReconciler
  | SetupWithManager
  | AddHealthzCheck
  | AddReadyzCheck
  | Start
deriving DecidableEq, Repr

/-- Function `main` from line 75 on: the steps it performs, in order, and the exit status of the
process (0 when `main` returns). -/
def main (o : Outcomes) : List Action × Nat :=
  let t0 := [Action.IsInstalled]
  match o.IsInstalled.2 with
  | some _ =>
    (t0 ++ [Action.Error "failed to check for existing Keda installations", Action.Exit 1], 1)
  | none =>
    if o.IsInstalled.1 then
      (t0 ++
        [Action.Error
            "keda-manager can't be installed on a cluster with an existing Keda installation, exiting..",
          Action.Exit 1], 1)
    else
      let t1 := t0 ++ [Action.NewManager]
      match o.NewManager with
      | some _ => (t1 ++ [Action.Error "unable to start manager", Action.Exit 1], 1)
      | none =>
        let t2 := t1 ++ [Action.Open] ++
          (match o.Open with
            | some _ => [Action.Error "unable to open k8s data"]
            | none => [])
        let t3 := t2 ++ [Action.LoadData]
        match o.LoadData with
        | some _ => (t3 ++ [Action.Error "unable to load k8s data", Action.Exit 1], 1)
        | none =>
          let t4 := t3 ++ [Action.Build]
          match o.Build with
          | some _ => (t4 ++ [Action.Error "unable to setup logger", Action.Exit 1], 1)
          | none =>
            let t5 := t4 ++
              [Action.Info "log level set to", Action.NewKedaReconciler, Action.SetupWithManager]
            match o.SetupWithManager with
            | some _ => (t5 ++ [Action.Error "unable to create controller", Action.Exit 1], 1)
            | none =>
              let t6 := t5 ++ [Action.AddHealthzCheck]
              match o.AddHealthzCheck with
              | some _ => (t6 ++ [Action.Error "unable to set up health check", Action.Exit 1], 1)
              | none =>
                let t7 := t6 ++ [Action.AddReadyzCheck]
                match o.AddReadyzCheck with
                | some _ =>
                  (t7 ++ [Action.Error "unable to set up ready check", Action.Exit 1], 1)
                | none =>
                  let t8 := t7 ++ [Action.Info "starting manager", Action.Start]
                  match o.Start with
                  | some _ => (t8 ++ [Action.Error "problem running manager", Action.Exit 1], 1)
                  | none => (t8, 0)

/-! ## Reading the ghost history -/

/-- The error a recorded call returned, if it failed. -/
def Event.failure : Event → Option GoError
  | Event.kedaManagerDeployment (Except.error e) => some e
  | Event.kedaManagerDeployment (Except.ok _) => none
  | Event.kedaMetricsServerDeployment (Except.error e) => some e
  | Event.kedaMetricsServerDeployment (Except.ok _) => none
  | Event.updateObj _ _ _ _ err => err

/-- What holds of every run of the chain that started with history `log0` and CR `k0`:
either no recorded call failed, the CR is still `k0` and the run did not stop; or
the run stopped without requeue on the error of the last recorded call, the only
one that failed, and the CR is `k0` with that error recorded. -/
def ChainInv (log0 : List Event) (k0 : Keda) (out : Outcome) : Prop :=
  (∃ evs, out.machine.log = log0 ++ evs ∧ (∀ ev ∈ evs, ev.failure = none) ∧
      out.machine.s.instance_ = k0 ∧ ∀ res err m1, out ≠ Outcome.stopped res err m1) ∨
    (∃ evs ev e m1, out = Outcome.stopped (some ⟨false, 0⟩) (some e) m1 ∧
      m1.log = log0 ++ evs ++ [ev] ∧ (∀ x ∈ evs, x.failure = none) ∧ ev.failure = some e ∧
      m1.s.instance_ =
        UpdateStateFromErr k0 ConditionTypeInstalled ConditionReasonDeploymentUpdateErr e)

/-- A patch stage with selector `getData` and update function `update` on the target at
`u`, run on the CR `k` with the target holding `o`, went on to the next state: either
the selector returned nil, the target still holds `o` and nothing was recorded, or
it returned `d`, the update of `o` with `d` succeeded and left `o1`, and that call
was recorded. -/
def StagePassed {R : Type} (getData : Option Keda → Option R) (update : UpdateFn R) (u : Ptr)
    (k : Keda) (o o1 : Unstructured) (evs : List Event) : Prop :=
  (getData (some k) = none ∧ o1 = o ∧ evs = []) ∨
    ∃ d, getData (some k) = some d ∧ update o d = (o1, none) ∧
      evs = [Event.updateObj R u update d none]

/-- A patch stage with selector `getData` and update function `update` on the target at
`u`, run on the CR `k` with the target holding `o`, had its update fail: the selector
returned `d`, the update of `o` with `d` returned the error `e` and left `o1`, and
`ev` is the record of that call. -/
def StageFailed {R : Type} (getData : Option Keda → Option R) (update : UpdateFn R) (u : Ptr)
    (k : Keda) (o o1 : Unstructured) (e : GoError) (ev : Event) : Prop :=
  ∃ d, getData (some k) = some d ∧ update o d = (o1, some e) ∧
    ev = Event.updateObj R u update d (some e)

/-! ## Sample data: the CR of the controller test and simple collaborators -/

/-- Rewrites container 0 of a target, when there is one. -/
def mapContainer0 (f : Container → Container) (o : Unstructured) : Unstructured :=
  match o.Containers with
  | [] => o
  | c :: cs => ⟨o.Name, f c :: cs⟩

/-- Sample update function: appends a level flag to the arguments of container 0. -/
def sampleOperatorArgs : UpdateFn LoggingOperatorCfg := fun o d =>
  (mapContainer0 (fun c => ⟨c.Args ++ ["--zap-log-level=" ++ d.Level.getD "info"], c.Resources, c.Env⟩) o,
    none)

/-- Sample update function: appends a verbosity flag to the arguments of container 0. -/
def sampleMetricsArgs : UpdateFn LoggingMetricsSrvCfg := fun o d =>
  (mapContainer0 (fun c => ⟨c.Args ++ ["--v=" ++ d.Level.getD "0"], c.Resources, c.Env⟩) o, none)

/-- Sample update function: replaces the resources of container 0, and fails when the
target has no container. -/
def sampleResources : UpdateFn ResourceRequirements := fun o d =>
  match o.Containers with
  | [] => (o, some ⟨"no container"⟩)
  | c :: cs => (⟨o.Name, ⟨c.Args, d, c.Env⟩ :: cs⟩, none)

/-- Sample update function: appends the declared variables to the env of container 0. -/
def sampleEnvs : UpdateFn EnvVars := fun o d =>
  (mapContainer0 (fun c => ⟨c.Args, c.Resources, c.Env ++ d⟩) o, none)

/-- Sample update function that refuses every resources patch and writes nothing. -/
def failingResources : UpdateFn ResourceRequirements := fun o _ =>
  (o, some ⟨"resources patch refused"⟩)

/-- Sample update function that adds a variable of its own besides the declared ones. -/
def markingEnvs : UpdateFn EnvVars := fun o d =>
  (mapContainer0 (fun c => ⟨c.Args, c.Resources, c.Env ++ d ++ [⟨"PATCHED", "1"⟩]⟩) o, none)

/-- The rendered operator Deployment of the samples. -/
def sampleOperator : Unstructured :=
  ⟨"keda-manager", [⟨["--zap-log-level=info"], ⟨[], [("cpu", "100m")]⟩, [⟨"POD", "x"⟩]⟩]⟩

/-- The rendered metrics-server Deployment of the samples. -/
def sampleMetrics : Unstructured :=
  ⟨"keda-manager-metrics-apiserver", [⟨["--v=0"], ⟨[], [("cpu", "100m")]⟩, []⟩]⟩

/-- Object memory of the samples: the operator at address 0, the metrics server elsewhere. -/
def sampleFsm : fsm := ⟨fun p => if p = 0 then sampleOperator else sampleMetrics⟩

/-- Operator resources declared by the CR of the controller test. -/
def sampleOperatorRes : ResourceRequirements :=
  ⟨[("cpu", "173m"), ("memory", "174Mi")], [("cpu", "171m"), ("memory", "172Mi")]⟩

/-- Metrics-server resources declared by the CR of the controller test. -/
def sampleMetricsRes : ResourceRequirements :=
  ⟨[("cpu", "177m"), ("memory", "178Mi")], [("cpu", "175m"), ("memory", "176Mi")]⟩

/-- Operator logging declared by the CR of the controller test. -/
def sampleOperatorLog : LoggingOperatorCfg := ⟨some "debug", some "json", some "epoch"⟩

/-- Metrics-server logging declared by the CR of the controller test. -/
def sampleMetricsLog : LoggingMetricsSrvCfg := ⟨some "debug"⟩

/-- Environment variables declared by the CR of the controller test. -/
def sampleEnvList : EnvVars :=
  [⟨"some-env-name", "some-env-value"⟩, ⟨"other-env-name", "other-env-value"⟩]

/-- The CR of the controller test (`kedaSpec`, lines 38-82 of the test file). -/
def sampleKeda : Keda :=
  ⟨⟨some ⟨some sampleOperatorLog, some sampleMetricsLog⟩,
      some ⟨some sampleOperatorRes, some sampleMetricsRes⟩, sampleEnvList⟩,
    ⟨State.Processing, []⟩⟩

/-- A CR that declares nothing. -/
def bareKeda : Keda := ⟨⟨none, none, []⟩, ⟨State.Processing, []⟩⟩

/-- Collaborators of the samples: both look-ups succeed, every update succeeds. -/
def sampleEnv : Collab :=
  ⟨fun _ => Except.ok 0, fun _ => Except.ok 1, sampleOperatorArgs, sampleMetricsArgs,
    sampleResources, sampleEnvs, fun m => ((none, none, none), m)⟩

/-- Collaborators whose resources update fails. -/
def failingEnv : Collab :=
  ⟨fun _ => Except.ok 0, fun _ => Except.ok 1, sampleOperatorArgs, sampleMetricsArgs,
    failingResources, sampleEnvs, fun m => ((none, none, none), m)⟩

/-- Collaborators whose env update adds a variable of its own. -/
def markingEnv : Collab :=
  ⟨fun _ => Except.ok 0, fun _ => Except.ok 1, sampleOperatorArgs, sampleMetricsArgs,
    sampleResources, markingEnvs, fun m => ((none, none, none), m)⟩

/-- The operator Deployment of the samples after its three patches. -/
def sampleOperatorPatched : Unstructured :=
  (sampleEnvs
    (sampleResources (sampleOperatorArgs sampleOperator sampleOperatorLog).1
      sampleOperatorRes).1 sampleEnvList).1

/-- The metrics-server Deployment of the samples after its three patches. -/
def sampleMetricsPatched : Unstructured :=
  (sampleEnvs
    (sampleResources (sampleMetricsArgs sampleMetrics sampleMetricsLog).1
      sampleMetricsRes).1 sampleEnvList).1

/-- Start-up in which every call succeeds and no installation is found. -/
def cleanStart : Outcomes := ⟨(false, none), none, none, none, none, none, none, none, none⟩

/-- Start-up on a cluster that already has an installation. -/
def conflictingStart : Outcomes := ⟨(true, none), none, none, none, none, none, none, none, none⟩

/-- Sample update function that refuses every env patch and writes nothing. -/
def failingEnvs : UpdateFn EnvVars := fun o _ => (o, some ⟨"env patch refused"⟩)

/-- Collaborators whose env update fails. -/
def envFailingEnv : Collab :=
  ⟨fun _ => Except.ok 0, fun _ => Except.ok 1, sampleOperatorArgs, sampleMetricsArgs,
    sampleResources, failingEnvs, fun m => ((none, none, none), m)⟩

/-- Sample update function that refuses every metrics-server args patch. -/
def failingMetricsArgs : UpdateFn LoggingMetricsSrvCfg := fun o _ =>
  (o, some ⟨"metrics args patch refused"⟩)

/-- Collaborators whose metrics-server args update fails. -/
def metricsFailingEnv : Collab :=
  ⟨fun _ => Except.ok 0, fun _ => Except.ok 1, sampleOperatorArgs, failingMetricsArgs,
    sampleResources, sampleEnvs, fun m => ((none, none, none), m)⟩

/-- Start of a pass on the CR of the controller test. -/
def sampleMachine : Machine := ⟨sampleFsm, ⟨sampleKeda⟩, []⟩

/-- Start of a pass on the CR that declares nothing. -/
def bareMachine : Machine := ⟨sampleFsm, ⟨bareKeda⟩, []⟩

/-! ## General lemmas -/

theorem mem_setStatusCondition (cs : List Condition) (c : Condition) :
    c ∈ setStatusCondition cs c := by
  induction cs with
  | nil => simp [setStatusCondition]
  | cons x xs ih =>
    unfold setStatusCondition
    split
    · simp
    · exact List.mem_cons_of_mem _ ih

theorem call_buildSfnUpdateObject_none {R : Type} (env : Collab) (u : Ptr) (update : UpdateFn R)
    (getData : Option Keda → Option R) (next : stateFn) (m : Machine)
    (hd : getData (some m.s.instance_) = none) :
    call env (buildSfnUpdateObject u update getData next) m = (switchState next, m) := by
  simp [call, buildSfnUpdateObject, sFnUpdateObject, hd]

theorem call_buildSfnUpdateObject_ok {R : Type} (env : Collab) (u : Ptr) (update : UpdateFn R)
    (getData : Option Keda → Option R) (next : stateFn) (m : Machine) (d : R)
    (hd : getData (some m.s.instance_) = some d) (hok : (update (m.r.Objs u) d).2 = none) :
    call env (buildSfnUpdateObject u update getData next) m =
      (switchState next,
        ⟨setObj m.r u (update (m.r.Objs u) d).1, m.s,
          m.log ++ [Event.updateObj R u update d none]⟩) := by
  simp [call, buildSfnUpdateObject, sFnUpdateObject, hd, updateObj, hok]

theorem call_buildSfnUpdateObject_err {R : Type} (env : Collab) (u : Ptr) (update : UpdateFn R)
    (getData : Option Keda → Option R) (next : stateFn) (m : Machine) (d : R) (e : GoError)
    (hd : getData (some m.s.instance_) = some d) (he : (update (m.r.Objs u) d).2 = some e) :
    call env (buildSfnUpdateObject u update getData next) m =
      (stopWithErrorAnNoRequeue e,
        ⟨setObj m.r u (update (m.r.Objs u) d).1,
          ⟨UpdateStateFromErr m.s.instance_ ConditionTypeInstalled
            ConditionReasonDeploymentUpdateErr e⟩,
          m.log ++ [Event.updateObj R u update d (some e)]⟩) := by
  simp [call, buildSfnUpdateObject, sFnUpdateObject, hd, updateObj, he]

theorem setObj_same (r : fsm) (u : Ptr) (o : Unstructured) : (setObj r u o).Objs u = o := by
  simp [setObj]

theorem setObj_setObj (r : fsm) (u : Ptr) (a b : Unstructured) :
    setObj (setObj r u a) u b = setObj r u b := by
  unfold setObj
  congr 1
  funext p
  by_cases h : p = u <;> simp [h]

theorem runChain_stage {R : Type} (env : Collab) (n : Nat) (u : Ptr) (update : UpdateFn R)
    (getData : Option Keda → Option R) (next : stateFn) (m : Machine) :
    runChain env (n + 1) (buildSfnUpdateObject u update getData next) m =
      match call env (buildSfnUpdateObject u update getData next) m with
      | ((some nx, _, _), m1) => runChain env n nx m1
      | ((none, res, err), m1) => Outcome.stopped res err m1 := by
  simp [runChain, buildSfnUpdateObject]

theorem runChain_stage_none {R : Type} (env : Collab) (n : Nat) (u : Ptr) (update : UpdateFn R)
    (getData : Option Keda → Option R) (next : stateFn) (m : Machine)
    (hd : getData (some m.s.instance_) = none) :
    runChain env (n + 1) (buildSfnUpdateObject u update getData next) m =
      runChain env n next m := by
  rw [runChain_stage, call_buildSfnUpdateObject_none env u update getData next m hd]
  rfl

theorem runChain_stage_ok {R : Type} (env : Collab) (n : Nat) (u : Ptr) (update : UpdateFn R)
    (getData : Option Keda → Option R) (next : stateFn) (m : Machine) (d : R)
    (hd : getData (some m.s.instance_) = some d) (hok : (update (m.r.Objs u) d).2 = none) :
    runChain env (n + 1) (buildSfnUpdateObject u update getData next) m =
      runChain env n next
        ⟨setObj m.r u (update (m.r.Objs u) d).1, m.s,
          m.log ++ [Event.updateObj R u update d none]⟩ := by
  rw [runChain_stage, call_buildSfnUpdateObject_ok env u update getData next m d hd hok]
  rfl

theorem runChain_stage_err {R : Type} (env : Collab) (n : Nat) (u : Ptr) (update : UpdateFn R)
    (getData : Option Keda → Option R) (next : stateFn) (m : Machine) (d : R) (e : GoError)
    (hd : getData (some m.s.instance_) = some d) (he : (update (m.r.Objs u) d).2 = some e) :
    runChain env (n + 1) (buildSfnUpdateObject u update getData next) m =
      Outcome.stopped (some ⟨false, 0⟩) (some e)
        ⟨setObj m.r u (update (m.r.Objs u) d).1,
          ⟨UpdateStateFromErr m.s.instance_ ConditionTypeInstalled
            ConditionReasonDeploymentUpdateErr e⟩,
          m.log ++ [Event.updateObj R u update d (some e)]⟩ := by
  rw [runChain_stage, call_buildSfnUpdateObject_err env u update getData next m d e hd he]
  rfl

theorem call_sFnUpdateKedaDeployment_ok (env : Collab) (m : Machine) (u : Ptr)
    (h : env.kedaManagerDeployment m.r = Except.ok u) :
    call env stateFn.sFnUpdateKedaDeployment m =
      (switchState (buildSfnUpdateOperatorLogging env u),
        ⟨m.r, m.s, m.log ++ [Event.kedaManagerDeployment (Except.ok u)]⟩) := by
  simp [call, sFnUpdateKedaDeployment, h]

theorem call_sFnUpdateKedaDeployment_err (env : Collab) (m : Machine) (e : GoError)
    (h : env.kedaManagerDeployment m.r = Except.error e) :
    call env stateFn.sFnUpdateKedaDeployment m =
      (stopWithErrorAnNoRequeue e,
        ⟨m.r,
          ⟨UpdateStateFromErr m.s.instance_ ConditionTypeInstalled
            ConditionReasonDeploymentUpdateErr e⟩,
          m.log ++ [Event.kedaManagerDeployment (Except.error e)]⟩) := by
  simp [call, sFnUpdateKedaDeployment, h]

theorem call_sFnUpdateMetricsServerDeployment_ok (env : Collab) (m : Machine) (u : Ptr)
    (h : env.kedaMetricsServerDeployment m.r = Except.ok u) :
    call env stateFn.sFnUpdateMetricsServerDeployment m =
      (switchState (buildSfnUpdateMetricsSvrLogging env u),
        ⟨m.r, m.s, m.log ++ [Event.kedaMetricsServerDeployment (Except.ok u)]⟩) := by
  simp [call, sFnUpdateMetricsServerDeployment, h]

theorem call_sFnUpdateMetricsServerDeployment_err (env : Collab) (m : Machine) (e : GoError)
    (h : env.kedaMetricsServerDeployment m.r = Except.error e) :
    call env stateFn.sFnUpdateMetricsServerDeployment m =
      (stopWithErrorAnNoRequeue e,
        ⟨m.r,
          ⟨UpdateStateFromErr m.s.instance_ ConditionTypeInstalled
            ConditionReasonDeploymentUpdateErr e⟩,
          m.log ++ [Event.kedaMetricsServerDeployment (Except.error e)]⟩) := by
  simp [call, sFnUpdateMetricsServerDeployment, h]

theorem runChain_keda_ok (env : Collab) (n : Nat) (m : Machine) (u : Ptr)
    (h : env.kedaManagerDeployment m.r = Except.ok u) :
    runChain env (n + 1) stateFn.sFnUpdateKedaDeployment m =
      runChain env n (buildSfnUpdateOperatorLogging env u)
        ⟨m.r, m.s, m.log ++ [Event.kedaManagerDeployment (Except.ok u)]⟩ := by
  simp [runChain, call_sFnUpdateKedaDeployment_ok env m u h, switchState]

theorem runChain_keda_err (env : Collab) (n : Nat) (m : Machine) (e : GoError)
    (h : env.kedaManagerDeployment m.r = Except.error e) :
    runChain env (n + 1) stateFn.sFnUpdateKedaDeployment m =
      Outcome.stopped (some ⟨false, 0⟩) (some e)
        ⟨m.r,
          ⟨UpdateStateFromErr m.s.instance_ ConditionTypeInstalled
            ConditionReasonDeploymentUpdateErr e⟩,
          m.log ++ [Event.kedaManagerDeployment (Except.error e)]⟩ := by
  simp [runChain, call_sFnUpdateKedaDeployment_err env m e h, stopWithErrorAnNoRequeue]

theorem runChain_metrics_ok (env : Collab) (n : Nat) (m : Machine) (u : Ptr)
    (h : env.kedaMetricsServerDeployment m.r = Except.ok u) :
    runChain env (n + 1) stateFn.sFnUpdateMetricsServerDeployment m =
      runChain env n (buildSfnUpdateMetricsSvrLogging env u)
        ⟨m.r, m.s, m.log ++ [Event.kedaMetricsServerDeployment (Except.ok u)]⟩ := by
  simp [runChain, call_sFnUpdateMetricsServerDeployment_ok env m u h, switchState]

theorem runChain_metrics_err (env : Collab) (n : Nat) (m : Machine) (e : GoError)
    (h : env.kedaMetricsServerDeployment m.r = Except.error e) :
    runChain env (n + 1) stateFn.sFnUpdateMetricsServerDeployment m =
      Outcome.stopped (some ⟨false, 0⟩) (some e)
        ⟨m.r,
          ⟨UpdateStateFromErr m.s.instance_ ConditionTypeInstalled
            ConditionReasonDeploymentUpdateErr e⟩,
          m.log ++ [Event.kedaMetricsServerDeployment (Except.error e)]⟩ := by
  simp [runChain, call_sFnUpdateMetricsServerDeployment_err env m e h, stopWithErrorAnNoRequeue]

theorem runChain_apply (env : Collab) (n : Nat) (m : Machine) :
    runChain env (n + 1) stateFn.sFnApply m = Outcome.reachedApply m := by
  simp [runChain]

theorem ChainInv_start (m : Machine) (out : Outcome) (h : out.machine = m)
    (hs : ∀ res err m1, out ≠ Outcome.stopped res err m1) :
    ChainInv m.log m.s.instance_ out := by
  left
  exact ⟨[], by simp [h], by simp, by simp [h], hs⟩

theorem ChainInv_failed (log0 : List Event) (k0 : Keda) (ev : Event) (e : GoError) (r : fsm)
    (hev : ev.failure = some e) :
    ChainInv log0 k0
      (Outcome.stopped (some ⟨false, 0⟩) (some e)
        ⟨r, ⟨UpdateStateFromErr k0 ConditionTypeInstalled ConditionReasonDeploymentUpdateErr e⟩,
          log0 ++ [ev]⟩) := by
  right
  exact ⟨[], ev, e, _, rfl, by simp, by simp, hev, rfl⟩

theorem ChainInv_step (log0 : List Event) (k0 : Keda) (ev0 : Event) (out : Outcome)
    (h0 : ev0.failure = none) (h : ChainInv (log0 ++ [ev0]) k0 out) : ChainInv log0 k0 out := by
  rcases h with ⟨evs, hlog, hall, hk, hs⟩ | ⟨evs, ev, e, m1, hout, hlog, hall, hev, hk⟩
  · left
    refine ⟨ev0 :: evs, by simp [hlog], ?_, hk, hs⟩
    intro x hx
    rcases List.mem_cons.mp hx with hx | hx
    · rw [hx]; exact h0
    · exact hall x hx
  · right
    refine ⟨ev0 :: evs, ev, e, m1, hout, by simp [hlog], ?_, hev, hk⟩
    intro x hx
    rcases List.mem_cons.mp hx with hx | hx
    · rw [hx]; exact h0
    · exact hall x hx

theorem runChain_ChainInv (env : Collab) :
    ∀ (n : Nat) (st : stateFn) (m : Machine),
      ChainInv m.log m.s.instance_ (runChain env n st m) := by
  intro n
  induction n with
  | zero =>
    intro st m
    exact ChainInv_start m _ (by simp [runChain, Outcome.machine]) (by simp [runChain])
  | succ n ih =>
    intro st m
    cases st with
    | sFnApply =>
      rw [runChain_apply]
      exact ChainInv_start m _ (by simp [Outcome.machine]) (by simp)
    | sFnUpdateKedaDeployment =>
      cases h : env.kedaManagerDeployment m.r with
      | error e =>
        rw [runChain_keda_err env n m e h]
        exact ChainInv_failed _ _ _ e _ rfl
      | ok u =>
        rw [runChain_keda_ok env n m u h]
        exact ChainInv_step _ _ (Event.kedaManagerDeployment (Except.ok u)) _ rfl
          (ih _ ⟨m.r, m.s, _⟩)
    | sFnUpdateMetricsServerDeployment =>
      cases h : env.kedaMetricsServerDeployment m.r with
      | error e =>
        rw [runChain_metrics_err env n m e h]
        exact ChainInv_failed _ _ _ e _ rfl
      | ok u =>
        rw [runChain_metrics_ok env n m u h]
        exact ChainInv_step _ _ (Event.kedaMetricsServerDeployment (Except.ok u)) _ rfl
          (ih _ ⟨m.r, m.s, _⟩)
    | sFnUpdateObject R u update getData next =>
      cases hd : getData (some m.s.instance_) with
      | none =>
        have := runChain_stage_none env n u update getData next m hd
        rw [buildSfnUpdateObject] at this
        rw [this]
        exact ih next m
      | some d =>
        cases he : (update (m.r.Objs u) d).2 with
        | none =>
          have := runChain_stage_ok env n u update getData next m d hd he
          rw [buildSfnUpdateObject] at this
          rw [this]
          exact ChainInv_step _ _ (Event.updateObj R u update d none) _ rfl (ih _ ⟨_, m.s, _⟩)
        | some e =>
          have := runChain_stage_err env n u update getData next m d e hd he
          rw [buildSfnUpdateObject] at this
          rw [this]
          exact ChainInv_failed _ _ _ e _ rfl

theorem failing_event_is_last (x ev : Event) (e : GoError) (hx : x.failure = some e) :
    ∀ (evs pre post : List Event), (∀ y ∈ evs, y.failure = none) →
      evs ++ [ev] = pre ++ x :: post → post = [] ∧ x = ev ∧ pre = evs := by
  intro evs
  induction evs with
  | nil =>
    intro pre post _ h
    cases pre with
    | nil =>
      simp at h
      exact ⟨h.2, h.1.symm, rfl⟩
    | cons p ps => simp at h
  | cons y ys ih =>
    intro pre post hall h
    cases pre with
    | nil =>
      simp at h
      have hy := hall y (by simp)
      rw [h.1, hx] at hy
      cases hy
    | cons p ps =>
      simp at h
      obtain ⟨h1, h2, h3⟩ := ih ps post (fun z hz => hall z (List.mem_cons_of_mem _ hz)) h.2
      exact ⟨h1, h2, by rw [h.1, h3]⟩

theorem setObj_self (r : fsm) (u : Ptr) : setObj r u (r.Objs u) = r := by
  cases r with
  | mk f =>
    unfold setObj
    congr 1
    funext p
    by_cases h : p = u <;> simp [h]

theorem runChain_apply_reached (env : Collab) (n : Nat) (m m1 : Machine)
    (h : runChain env n stateFn.sFnApply m = Outcome.reachedApply m1) : m1 = m := by
  cases n with
  | zero => simp [runChain] at h
  | succ j =>
    rw [runChain_apply] at h
    cases h
    rfl

theorem runChain_keda_reached (env : Collab) (n : Nat) (r : fsm) (k : Keda) (log : List Event)
    (m1 : Machine)
    (h : runChain env n stateFn.sFnUpdateKedaDeployment ⟨r, ⟨k⟩, log⟩ = Outcome.reachedApply m1) :
    ∃ j u, n = j + 1 ∧ env.kedaManagerDeployment r = Except.ok u ∧
      runChain env j (buildSfnUpdateOperatorLogging env u)
        ⟨r, ⟨k⟩, log ++ [Event.kedaManagerDeployment (Except.ok u)]⟩ = Outcome.reachedApply m1 := by
  cases n with
  | zero => simp [runChain] at h
  | succ j =>
    cases hu : env.kedaManagerDeployment r with
    | error e =>
      rw [runChain_keda_err env j ⟨r, ⟨k⟩, log⟩ e hu] at h
      cases h
    | ok u =>
      rw [runChain_keda_ok env j ⟨r, ⟨k⟩, log⟩ u hu] at h
      exact ⟨j, u, rfl, rfl, h⟩

theorem runChain_metrics_reached (env : Collab) (n : Nat) (r : fsm) (k : Keda)
    (log : List Event) (m1 : Machine)
    (h : runChain env n stateFn.sFnUpdateMetricsServerDeployment ⟨r, ⟨k⟩, log⟩ =
      Outcome.reachedApply m1) :
    ∃ j u, n = j + 1 ∧ env.kedaMetricsServerDeployment r = Except.ok u ∧
      runChain env j (buildSfnUpdateMetricsSvrLogging env u)
        ⟨r, ⟨k⟩, log ++ [Event.kedaMetricsServerDeployment (Except.ok u)]⟩ =
          Outcome.reachedApply m1 := by
  cases n with
  | zero => simp [runChain] at h
  | succ j =>
    cases hu : env.kedaMetricsServerDeployment r with
    | error e =>
      rw [runChain_metrics_err env j ⟨r, ⟨k⟩, log⟩ e hu] at h
      cases h
    | ok u =>
      rw [runChain_metrics_ok env j ⟨r, ⟨k⟩, log⟩ u hu] at h
      exact ⟨j, u, rfl, rfl, h⟩

theorem runChain_stage_reached {R : Type} (env : Collab) (n : Nat) (u : Ptr)
    (update : UpdateFn R) (getData : Option Keda → Option R) (next : stateFn) (r : fsm)
    (k : Keda) (log : List Event) (m1 : Machine)
    (h : runChain env n (buildSfnUpdateObject u update getData next) ⟨r, ⟨k⟩, log⟩ =
      Outcome.reachedApply m1) :
    ∃ j o evs, n = j + 1 ∧
      runChain env j next ⟨setObj r u o, ⟨k⟩, log ++ evs⟩ = Outcome.reachedApply m1 ∧
      ((getData (some k) = none ∧ o = r.Objs u ∧ evs = []) ∨
        ∃ d, getData (some k) = some d ∧ update (r.Objs u) d = (o, none) ∧
          evs = [Event.updateObj R u update d none]) := by
  cases n with
  | zero => simp [runChain, buildSfnUpdateObject] at h
  | succ j =>
    cases hd : getData (some k) with
    | none =>
      rw [runChain_stage_none env j u update getData next ⟨r, ⟨k⟩, log⟩ hd] at h
      refine ⟨j, r.Objs u, [], rfl, ?_, Or.inl ⟨rfl, rfl, rfl⟩⟩
      rw [setObj_self, List.append_nil]
      exact h
    | some d =>
      cases he : (update (r.Objs u) d).2 with
      | none =>
        rw [runChain_stage_ok env j u update getData next ⟨r, ⟨k⟩, log⟩ d hd he] at h
        exact ⟨j, (update (r.Objs u) d).1, _, rfl, h, Or.inr ⟨d, rfl, by rw [← he], rfl⟩⟩
      | some e =>
        rw [runChain_stage_err env j u update getData next ⟨r, ⟨k⟩, log⟩ d e hd he] at h
        cases h

theorem call_env_stage (env : Collab) (w : Ptr) (next : stateFn) (m : Machine) :
    (call env (buildSfnUpdateObject w env.updateKedaContanierEnvs envVars next) m).2.log =
      m.log ++
        [Event.updateObj EnvVars w env.updateKedaContanierEnvs m.s.instance_.Spec.Env
          (env.updateKedaContanierEnvs (m.r.Objs w) m.s.instance_.Spec.Env).2] := by
  cases he : (env.updateKedaContanierEnvs (m.r.Objs w) m.s.instance_.Spec.Env).2 with
  | none =>
    rw [call_buildSfnUpdateObject_ok env w _ envVars next m m.s.instance_.Spec.Env rfl he]
  | some e =>
    rw [call_buildSfnUpdateObject_err env w _ envVars next m m.s.instance_.Spec.Env e rfl he]

theorem log_append_ne (m1 m : Machine) (ev : Event) (h : m1.log = m.log ++ [ev]) : m1 ≠ m := by
  intro heq
  rw [heq] at h
  have := congrArg List.length h
  simp at this

theorem call_cases (env : Collab) (st : stateFn) (m : Machine)
    (hst : st = stateFn.sFnUpdateKedaDeployment ∨ st = stateFn.sFnUpdateMetricsServerDeployment ∨
      ∃ (R : Type) (u : Ptr) (update : UpdateFn R) (getData : Option Keda → Option R)
        (next : stateFn), st = buildSfnUpdateObject u update getData next) :
    (∃ nx, (call env st m).1 = switchState nx ∧ (call env st m).2.s.instance_ = m.s.instance_) ∨
      ∃ e, (call env st m).1 = stopWithErrorAnNoRequeue e ∧
        (call env st m).2.s.instance_ =
          UpdateStateFromErr m.s.instance_ ConditionTypeInstalled
            ConditionReasonDeploymentUpdateErr e := by
  rcases hst with h | h | ⟨R, u, update, getData, next, h⟩
  · subst h
    cases hl : env.kedaManagerDeployment m.r with
    | error e =>
      rw [call_sFnUpdateKedaDeployment_err env m e hl]
      exact Or.inr ⟨e, rfl, rfl⟩
    | ok u =>
      rw [call_sFnUpdateKedaDeployment_ok env m u hl]
      exact Or.inl ⟨_, rfl, rfl⟩
  · subst h
    cases hl : env.kedaMetricsServerDeployment m.r with
    | error e =>
      rw [call_sFnUpdateMetricsServerDeployment_err env m e hl]
      exact Or.inr ⟨e, rfl, rfl⟩
    | ok u =>
      rw [call_sFnUpdateMetricsServerDeployment_ok env m u hl]
      exact Or.inl ⟨_, rfl, rfl⟩
  · subst h
    cases hd : getData (some m.s.instance_) with
    | none =>
      rw [call_buildSfnUpdateObject_none env u update getData next m hd]
      exact Or.inl ⟨_, rfl, rfl⟩
    | some d =>
      cases he : (update (m.r.Objs u) d).2 with
      | none =>
        rw [call_buildSfnUpdateObject_ok env u update getData next m d hd he]
        exact Or.inl ⟨_, rfl, rfl⟩
      | some e =>
        rw [call_buildSfnUpdateObject_err env u update getData next m d e hd he]
        exact Or.inr ⟨e, rfl, rfl⟩

theorem runChain_stage_passed {R : Type} (env : Collab) (n : Nat) (u : Ptr)
    (update : UpdateFn R) (getData : Option Keda → Option R) (next : stateFn) (r : fsm)
    (k : Keda) (log : List Event) (o o1 : Unstructured) (evs : List Event) (ho : r.Objs u = o)
    (h : StagePassed getData update u k o o1 evs) :
    runChain env (n + 1) (buildSfnUpdateObject u update getData next) ⟨r, ⟨k⟩, log⟩ =
      runChain env n next ⟨setObj r u o1, ⟨k⟩, log ++ evs⟩ := by
  subst ho
  rcases h with ⟨hn, ho1, hevs⟩ | ⟨d, hd, hupd, hevs⟩
  · rw [runChain_stage_none env n u update getData next ⟨r, ⟨k⟩, log⟩ hn, ho1, hevs,
      setObj_self, List.append_nil]
  · rw [runChain_stage_ok env n u update getData next ⟨r, ⟨k⟩, log⟩ d hd (by simp [hupd]), hevs]
    simp [hupd]

theorem runChain_stage_failed {R : Type} (env : Collab) (n : Nat) (u : Ptr)
    (update : UpdateFn R) (getData : Option Keda → Option R) (next : stateFn) (r : fsm)
    (k : Keda) (log : List Event) (o o1 : Unstructured) (e : GoError) (ev : Event)
    (ho : r.Objs u = o) (h : StageFailed getData update u k o o1 e ev) :
    runChain env (n + 1) (buildSfnUpdateObject u update getData next) ⟨r, ⟨k⟩, log⟩ =
      Outcome.stopped (some ⟨false, 0⟩) (some e)
        ⟨setObj r u o1,
          ⟨UpdateStateFromErr k ConditionTypeInstalled ConditionReasonDeploymentUpdateErr e⟩,
          log ++ [ev]⟩ := by
  subst ho
  obtain ⟨d, hd, hupd, hev⟩ := h
  rw [runChain_stage_err env n u update getData next ⟨r, ⟨k⟩, log⟩ d e hd (by simp [hupd]), hev]
  simp [hupd]

theorem StagePassed_no_lookup {R : Type} (getData : Option Keda → Option R)
    (update : UpdateFn R) (u : Ptr) (k : Keda) (o o1 : Unstructured) (evs : List Event)
    (h : StagePassed getData update u k o o1 evs) (res : Except GoError Ptr) :
    Event.kedaMetricsServerDeployment res ∉ evs := by
  rcases h with ⟨_, _, hevs⟩ | ⟨d, _, _, hevs⟩ <;> simp [hevs]

theorem StageFailed_no_lookup {R : Type} (getData : Option Keda → Option R)
    (update : UpdateFn R) (u : Ptr) (k : Keda) (o o1 : Unstructured) (e : GoError) (ev : Event)
    (h : StageFailed getData update u k o o1 e ev) (res : Except GoError Ptr) :
    Event.kedaMetricsServerDeployment res ≠ ev := by
  obtain ⟨d, _, _, hev⟩ := h
  simp [hev]

theorem runChain_operator_passed (env : Collab) (n : Nat) (r : fsm) (k : Keda)
    (log : List Event) (u : Ptr) (o1 o2 o3 : Unstructured) (evs1 evs2 evs3 : List Event)
    (hu : env.kedaManagerDeployment r = Except.ok u)
    (h1 : StagePassed loggingOperatorCfg env.updateKedaOperatorContainer0Args u k (r.Objs u) o1
      evs1)
    (h2 : StagePassed operatorResources env.updateKedaContanier0Resources u k o1 o2 evs2)
    (h3 : StagePassed envVars env.updateKedaContanierEnvs u k o2 o3 evs3) :
    runChain env (n + 4) stateFn.sFnUpdateKedaDeployment ⟨r, ⟨k⟩, log⟩ =
      runChain env n stateFn.sFnUpdateMetricsServerDeployment
        ⟨setObj r u o3, ⟨k⟩,
          log ++ [Event.kedaManagerDeployment (Except.ok u)] ++ evs1 ++ evs2 ++ evs3⟩ := by
  rw [runChain_keda_ok env (n + 3) ⟨r, ⟨k⟩, log⟩ u hu, buildSfnUpdateOperatorLogging,
    runChain_stage_passed env (n + 2) u _ _ _ r k _ _ o1 evs1 rfl h1,
    buildSfnUpdateOperatorResources,
    runChain_stage_passed env (n + 1) u _ _ _ _ k _ _ o2 evs2 (setObj_same _ _ _) h2,
    buildSfnUpdateOperatorEnvs,
    runChain_stage_passed env n u _ _ _ _ k _ _ o3 evs3 (setObj_same _ _ _) h3]
  simp only [setObj_setObj]

/-! ## The patch combinator -/

/-- C1, as the code has it: when the selector returns a value and the update function
fails with `e`, the stage built by `buildSfnUpdateObject` returns
`stopWithErrorAnNoRequeue e`, the terminal marker that tells the scheduler not to
retry; it differs from `stopWithErrorAndRequeue e`. -/
theorem C1_update_error_stops_without_requeue {R : Type} (env : Collab) (u : Ptr)
    (update : UpdateFn R) (getData : Option Keda → Option R) (next : stateFn) (m : Machine)
    (d : R) (e : GoError) (hd : getData (some m.s.instance_) = some d)
    (he : (update (m.r.Objs u) d).2 = some e) :
    (call env (buildSfnUpdateObject u update getData next) m).1 = stopWithErrorAnNoRequeue e ∧
      (call env (buildSfnUpdateObject u update getData next) m).1 ≠ stopWithErrorAndRequeue e := by
  rw [call_buildSfnUpdateObject_err env u update getData next m d e hd he]
  simp [stopWithErrorAnNoRequeue, stopWithErrorAndRequeue]

/-- Witness of C1: the operator-resources stage of the test CR with a failing update. -/
theorem C1_update_error_stops_without_requeue_witness :
    operatorResources (some sampleMachine.s.instance_) = some sampleOperatorRes ∧
      (failingResources (sampleMachine.r.Objs 0) sampleOperatorRes).2 =
        some ⟨"resources patch refused"⟩ ∧
      (call failingEnv
          (buildSfnUpdateObject 0 failingResources operatorResources stateFn.sFnApply)
          sampleMachine).1 = stopWithErrorAnNoRequeue ⟨"resources patch refused"⟩ ∧
      (call failingEnv
          (buildSfnUpdateObject 0 failingResources operatorResources stateFn.sFnApply)
          sampleMachine).1 ≠ stopWithErrorAndRequeue ⟨"resources patch refused"⟩ :=
  ⟨rfl, rfl,
    C1_update_error_stops_without_requeue failingEnv 0 failingResources operatorResources
      stateFn.sFnApply sampleMachine sampleOperatorRes ⟨"resources patch refused"⟩ rfl rfl⟩

/-- C1 as stated fails: on the test CR the operator-resources selector returns a value,
the update function fails, and the stage does not return the requeue marker. -/
theorem C1_counterexample :
    operatorResources (some sampleMachine.s.instance_) = some sampleOperatorRes ∧
      (failingResources (sampleMachine.r.Objs 0) sampleOperatorRes).2 =
        some ⟨"resources patch refused"⟩ ∧
      (call failingEnv (buildSfnUpdateOperatorResources failingEnv 0) sampleMachine).1 ≠
        stopWithErrorAndRequeue ⟨"resources patch refused"⟩ := by
  refine ⟨rfl, rfl, ?_⟩
  simp [call, buildSfnUpdateOperatorResources, buildSfnUpdateObject, sFnUpdateObject,
    operatorResources, sampleMachine, sampleKeda, updateObj, failingEnv, failingResources,
    stopWithErrorAnNoRequeue, stopWithErrorAndRequeue]

/-- C2: when the update function of a stage built by `buildSfnUpdateObject` fails with
`e`, the stage returns no next state and the error `e`, and the CR snapshot of the
returned machine is `UpdateStateFromErr` of the snapshot before, with condition
type Installed, reason DeploymentUpdateErr and `e`; in particular the state is
Error and the condition Installed=False with that reason and message is present. -/
theorem C2_update_error_recorded {R : Type} (env : Collab) (u : Ptr) (update : UpdateFn R)
    (getData : Option Keda → Option R) (next : stateFn) (m : Machine) (d : R) (e : GoError)
    (hd : getData (some m.s.instance_) = some d) (he : (update (m.r.Objs u) d).2 = some e) :
    (call env (buildSfnUpdateObject u update getData next) m).2.s.instance_ =
        UpdateStateFromErr m.s.instance_ ConditionTypeInstalled
          ConditionReasonDeploymentUpdateErr e ∧
      (call env (buildSfnUpdateObject u update getData next) m).1.1 = none ∧
      (call env (buildSfnUpdateObject u update getData next) m).1.2.2 = some e ∧
      (call env (buildSfnUpdateObject u update getData next) m).2.s.instance_.Status.State =
        State.Error ∧
      (⟨"Installed", ConditionStatus.ConditionFalse, "DeploymentUpdateErr", e.msg⟩ : Condition) ∈
        (call env (buildSfnUpdateObject u update getData next) m).2.s.instance_.Status.Conditions ∧
      (call env (buildSfnUpdateObject u update getData next) m).2.s.instance_.Spec =
        m.s.instance_.Spec := by
  rw [call_buildSfnUpdateObject_err env u update getData next m d e hd he]
  refine ⟨rfl, rfl, rfl, rfl, ?_, rfl⟩
  exact mem_setStatusCondition _ _

/-- Witness of C2: the operator-resources stage of the test CR with a failing update. -/
theorem C2_update_error_recorded_witness :
    operatorResources (some sampleMachine.s.instance_) = some sampleOperatorRes ∧
      (failingResources (sampleMachine.r.Objs 0) sampleOperatorRes).2 =
        some ⟨"resources patch refused"⟩ ∧
      (call failingEnv (buildSfnUpdateObject 0 failingResources operatorResources stateFn.sFnApply)
          sampleMachine).2.s.instance_.Status =
      ⟨State.Error,
        [⟨"Installed", ConditionStatus.ConditionFalse, "DeploymentUpdateErr",
          "resources patch refused"⟩]⟩ :=
  ⟨rfl, rfl,
    (C2_update_error_recorded failingEnv 0 failingResources operatorResources stateFn.sFnApply
      sampleMachine sampleOperatorRes ⟨"resources patch refused"⟩ rfl rfl).1 ▸ rfl⟩

/-- C3: when the selector returns nil, the stage built by `buildSfnUpdateObject` returns
exactly `switchState next`, that is `(next, nil, nil)`, and the machine is the one
it was given: no call of the update function is recorded, every target object and
the CR snapshot are unchanged. -/
theorem C3_absent_data_is_noop {R : Type} (env : Collab) (u : Ptr) (update : UpdateFn R)
    (getData : Option Keda → Option R) (next : stateFn) (m : Machine)
    (hd : getData (some m.s.instance_) = none) :
    (call env (buildSfnUpdateObject u update getData next) m).1 = switchState next ∧
      switchState next = (some next, none, none) ∧
      (call env (buildSfnUpdateObject u update getData next) m).2.log = m.log ∧
      (call env (buildSfnUpdateObject u update getData next) m).2.r.Objs u = m.r.Objs u ∧
      (call env (buildSfnUpdateObject u update getData next) m).2.s.instance_ = m.s.instance_ ∧
      (call env (buildSfnUpdateObject u update getData next) m).2 = m := by
  rw [call_buildSfnUpdateObject_none env u update getData next m hd]
  exact ⟨rfl, rfl, rfl, rfl, rfl, rfl⟩

/-- Witness of C3: the operator-resources stage on the CR that declares nothing, with
an update function that would fail if it were called. -/
theorem C3_absent_data_is_noop_witness :
    operatorResources (some bareMachine.s.instance_) = none ∧
      (call failingEnv (buildSfnUpdateObject 0 failingResources operatorResources stateFn.sFnApply)
          bareMachine).1 = (some stateFn.sFnApply, none, none) ∧
      (call failingEnv (buildSfnUpdateObject 0 failingResources operatorResources stateFn.sFnApply)
          bareMachine).2 = bareMachine :=
  ⟨rfl,
    (C3_absent_data_is_noop failingEnv 0 failingResources operatorResources stateFn.sFnApply
      bareMachine rfl).1,
    (C3_absent_data_is_noop failingEnv 0 failingResources operatorResources stateFn.sFnApply
      bareMachine rfl).2.2.2.2.2⟩

/-! ## The six patch stages -/

/-- C4, as the code has it: in the four logging and resources stages, when the field
the stage reads is unset the machine is left as it was (no update call, target and
CR untouched), whatever the update functions are, and the stage switches to the
following stage.  The two env stages never take that branch: they call
`updateKedaContanierEnvs` on the target with `spec.env`, also when it is empty;
the target becomes what that call leaves, and the stage switches to the following
state when the call succeeds. -/
theorem C4_absence_is_default (env : Collab) (u : Ptr) (m : Machine) :
    ((m.s.instance_.Spec.Logging = none ∨
          ∃ l, m.s.instance_.Spec.Logging = some l ∧ l.Operator = none) →
        call env (buildSfnUpdateOperatorLogging env u) m =
          (switchState (buildSfnUpdateOperatorResources env u), m)) ∧
      ((m.s.instance_.Spec.Resources = none ∨
          ∃ rs, m.s.instance_.Spec.Resources = some rs ∧ rs.Operator = none) →
        call env (buildSfnUpdateOperatorResources env u) m =
          (switchState (buildSfnUpdateOperatorEnvs env u), m)) ∧
      ((m.s.instance_.Spec.Logging = none ∨
          ∃ l, m.s.instance_.Spec.Logging = some l ∧ l.MetricsServer = none) →
        call env (buildSfnUpdateMetricsSvrLogging env u) m =
          (switchState (buildSfnUpdateMetricsSvrResources env u), m)) ∧
      ((m.s.instance_.Spec.Resources = none ∨
          ∃ rs, m.s.instance_.Spec.Resources = some rs ∧ rs.MetricsServer = none) →
        call env (buildSfnUpdateMetricsSvrResources env u) m =
          (switchState (buildSfnUpdateMetricsSvrEnvVars env u), m)) ∧
      ((call env (buildSfnUpdateOperatorEnvs env u) m).2.r =
          setObj m.r u (env.updateKedaContanierEnvs (m.r.Objs u) m.s.instance_.Spec.Env).1 ∧
        ((env.updateKedaContanierEnvs (m.r.Objs u) m.s.instance_.Spec.Env).2 = none →
          (call env (buildSfnUpdateOperatorEnvs env u) m).1 =
            switchState stateFn.sFnUpdateMetricsServerDeployment)) ∧
      ((call env (buildSfnUpdateMetricsSvrEnvVars env u) m).2.r =
          setObj m.r u (env.updateKedaContanierEnvs (m.r.Objs u) m.s.instance_.Spec.Env).1 ∧
        ((env.updateKedaContanierEnvs (m.r.Objs u) m.s.instance_.Spec.Env).2 = none →
          (call env (buildSfnUpdateMetricsSvrEnvVars env u) m).1 =
            switchState stateFn.sFnApply)) := by
  refine ⟨?_, ?_, ?_, ?_, ?_, ?_⟩
  · intro h
    apply call_buildSfnUpdateObject_none
    rcases h with h | ⟨l, h, hl⟩
    · simp [loggingOperatorCfg, h]
    · simp [loggingOperatorCfg, h, hl]
  · intro h
    apply call_buildSfnUpdateObject_none
    rcases h with h | ⟨l, h, hl⟩
    · simp [operatorResources, h]
    · simp [operatorResources, h, hl]
  · intro h
    apply call_buildSfnUpdateObject_none
    rcases h with h | ⟨l, h, hl⟩
    · simp [loggingMetricsSrvCfg, h]
    · simp [loggingMetricsSrvCfg, h, hl]
  · intro h
    apply call_buildSfnUpdateObject_none
    rcases h with h | ⟨l, h, hl⟩
    · simp [metricsSvrResources, h]
    · simp [metricsSvrResources, h, hl]
  · cases he : (env.updateKedaContanierEnvs (m.r.Objs u) m.s.instance_.Spec.Env).2 with
    | none =>
      rw [buildSfnUpdateOperatorEnvs,
        call_buildSfnUpdateObject_ok env u _ envVars _ m m.s.instance_.Spec.Env rfl he]
      simp
    | some e =>
      rw [buildSfnUpdateOperatorEnvs,
        call_buildSfnUpdateObject_err env u _ envVars _ m m.s.instance_.Spec.Env e rfl he]
      simp
  · cases he : (env.updateKedaContanierEnvs (m.r.Objs u) m.s.instance_.Spec.Env).2 with
    | none =>
      rw [buildSfnUpdateMetricsSvrEnvVars,
        call_buildSfnUpdateObject_ok env u _ envVars _ m m.s.instance_.Spec.Env rfl he]
      simp
    | some e =>
      rw [buildSfnUpdateMetricsSvrEnvVars,
        call_buildSfnUpdateObject_err env u _ envVars _ m m.s.instance_.Spec.Env e rfl he]
      simp

/-- Witness of C4: the CR that declares nothing; the operator-logging stage leaves the
machine as it was and switches to the operator-resources stage. -/
theorem C4_absence_is_default_witness :
    bareMachine.s.instance_.Spec.Logging = none ∧
      call failingEnv (buildSfnUpdateOperatorLogging failingEnv 0) bareMachine =
        (switchState (buildSfnUpdateOperatorResources failingEnv 0), bareMachine) :=
  ⟨rfl, (C4_absence_is_default failingEnv 0 bareMachine).1 (Or.inl rfl)⟩

/-- C4 as stated fails for the env stages: on a CR whose `spec.env` is empty, the
operator env stage still calls the update function, and with an update function
that writes to the target the rendered default is not left untouched. -/
theorem C4_counterexample :
    bareMachine.s.instance_.Spec.Env = [] ∧
      bareMachine.r.Objs 0 = sampleOperator ∧
      (call markingEnv (buildSfnUpdateOperatorEnvs markingEnv 0) bareMachine).2.r.Objs 0 =
        ⟨"keda-manager",
          [⟨["--zap-log-level=info"], ⟨[], [("cpu", "100m")]⟩,
            [⟨"POD", "x"⟩, ⟨"PATCHED", "1"⟩]⟩]⟩ ∧
      (call markingEnv (buildSfnUpdateOperatorEnvs markingEnv 0) bareMachine).2.r.Objs 0 ≠
        bareMachine.r.Objs 0 := by
  refine ⟨rfl, rfl, rfl, ?_⟩
  decide

/-! ## The chain from `sFnUpdateKedaDeployment` -/

/-- C5: on a CR with all four logging and resources fields set, when the operator look-up
finds `u`, the three operator updates succeed (leaving `o1`, `o2`, `o3` at `u`), the
metrics-server look-up then finds `v` and the three metrics-server updates succeed
(leaving `m1`, `m2`, `m3` at `v`), a run from `sFnUpdateKedaDeployment` with fuel 9 or
more ends at `sFnApply`, and the history of the run is exactly: operator look-up,
operator args, operator resources, operator env on `u`, metrics-server look-up,
metrics-server args, metrics-server resources, metrics-server env on `v`; the
CR snapshot is unchanged. -/
theorem C5_chain_order (env : Collab) (r : fsm) (k : Keda) (log : List Event) (n : Nat)
    (u v : Ptr) (lg : LoggingCfg) (lo : LoggingOperatorCfg) (lm : LoggingMetricsSrvCfg)
    (rs : Resources) (ro rm : ResourceRequirements) (o1 o2 o3 m1 m2 m3 : Unstructured)
    (hlg : k.Spec.Logging = some lg) (hlo : lg.Operator = some lo)
    (hlm : lg.MetricsServer = some lm)
    (hrs : k.Spec.Resources = some rs) (hro : rs.Operator = some ro)
    (hrm : rs.MetricsServer = some rm)
    (hu : env.kedaManagerDeployment r = Except.ok u)
    (h1 : env.updateKedaOperatorContainer0Args (r.Objs u) lo = (o1, none))
    (h2 : env.updateKedaContanier0Resources o1 ro = (o2, none))
    (h3 : env.updateKedaContanierEnvs o2 k.Spec.Env = (o3, none))
    (hv : env.kedaMetricsServerDeployment (setObj r u o3) = Except.ok v)
    (h4 : env.updateKedaMetricsServerContainer0Args ((setObj r u o3).Objs v) lm = (m1, none))
    (h5 : env.updateKedaContanier0Resources m1 rm = (m2, none))
    (h6 : env.updateKedaContanierEnvs m2 k.Spec.Env = (m3, none)) :
    runChain env (n + 9) stateFn.sFnUpdateKedaDeployment ⟨r, ⟨k⟩, log⟩ =
      Outcome.reachedApply
        ⟨setObj (setObj r u o3) v m3, ⟨k⟩,
          log ++
            [Event.kedaManagerDeployment (Except.ok u),
              Event.updateObj LoggingOperatorCfg u env.updateKedaOperatorContainer0Args lo none,
              Event.updateObj ResourceRequirements u env.updateKedaContanier0Resources ro none,
              Event.updateObj EnvVars u env.updateKedaContanierEnvs k.Spec.Env none,
              Event.kedaMetricsServerDeployment (Except.ok v),
              Event.updateObj LoggingMetricsSrvCfg v env.updateKedaMetricsServerContainer0Args
                lm none,
              Event.updateObj ResourceRequirements v env.updateKedaContanier0Resources rm none,
              Event.updateObj EnvVars v env.updateKedaContanierEnvs k.Spec.Env none]⟩ := by
  have e1 : loggingOperatorCfg (some k) = some lo := by simp [loggingOperatorCfg, hlg, hlo]
  have e2 : operatorResources (some k) = some ro := by simp [operatorResources, hrs, hro]
  have e4 : loggingMetricsSrvCfg (some k) = some lm := by simp [loggingMetricsSrvCfg, hlg, hlm]
  have e5 : metricsSvrResources (some k) = some rm := by simp [metricsSvrResources, hrs, hrm]
  have e3 : envVars (some k) = some k.Spec.Env := rfl
  rw [runChain_keda_ok env (n + 8) _ u hu]
  rw [buildSfnUpdateOperatorLogging,
    runChain_stage_ok env (n + 7) u _ loggingOperatorCfg _ _ lo e1 (by simp [h1])]
  simp only [h1]
  rw [buildSfnUpdateOperatorResources,
    runChain_stage_ok env (n + 6) u _ operatorResources _ _ ro e2 (by simp [setObj_same, h2])]
  simp only [setObj_same, h2, setObj_setObj]
  rw [buildSfnUpdateOperatorEnvs,
    runChain_stage_ok env (n + 5) u _ envVars _ _ k.Spec.Env e3 (by simp [setObj_same, h3])]
  simp only [setObj_same, h3, setObj_setObj]
  rw [runChain_metrics_ok env (n + 4) _ v hv]
  rw [buildSfnUpdateMetricsSvrLogging,
    runChain_stage_ok env (n + 3) v _ loggingMetricsSrvCfg _ _ lm e4 (by simp [h4])]
  simp only [h4]
  rw [buildSfnUpdateMetricsSvrResources,
    runChain_stage_ok env (n + 2) v _ metricsSvrResources _ _ rm e5 (by simp [setObj_same, h5])]
  simp only [setObj_same, h5, setObj_setObj]
  rw [buildSfnUpdateMetricsSvrEnvVars,
    runChain_stage_ok env (n + 1) v _ envVars _ _ k.Spec.Env e3 (by simp [setObj_same, h6])]
  simp only [setObj_same, h6, setObj_setObj]
  rw [runChain_apply]
  simp

/-- Witness of C5: the CR of the controller test with the sample collaborators. -/
theorem C5_chain_order_witness :
    sampleEnv.kedaManagerDeployment sampleFsm = Except.ok 0 ∧
      sampleEnv.kedaMetricsServerDeployment (setObj sampleFsm 0 sampleOperatorPatched) =
        Except.ok 1 ∧
      runChain sampleEnv 9 stateFn.sFnUpdateKedaDeployment sampleMachine =
        Outcome.reachedApply
          ⟨setObj (setObj sampleFsm 0 sampleOperatorPatched) 1 sampleMetricsPatched,
            ⟨sampleKeda⟩,
            [Event.kedaManagerDeployment (Except.ok 0),
              Event.updateObj LoggingOperatorCfg 0 sampleOperatorArgs sampleOperatorLog none,
              Event.updateObj ResourceRequirements 0 sampleResources sampleOperatorRes none,
              Event.updateObj EnvVars 0 sampleEnvs sampleEnvList none,
              Event.kedaMetricsServerDeployment (Except.ok 1),
              Event.updateObj LoggingMetricsSrvCfg 1 sampleMetricsArgs sampleMetricsLog none,
              Event.updateObj ResourceRequirements 1 sampleResources sampleMetricsRes none,
              Event.updateObj EnvVars 1 sampleEnvs sampleEnvList none]⟩ :=
  ⟨rfl, rfl,
    C5_chain_order sampleEnv sampleFsm sampleKeda [] 0 0 1
      ⟨some sampleOperatorLog, some sampleMetricsLog⟩ sampleOperatorLog sampleMetricsLog
      ⟨some sampleOperatorRes, some sampleMetricsRes⟩ sampleOperatorRes sampleMetricsRes
      (sampleOperatorArgs sampleOperator sampleOperatorLog).1
      (sampleResources (sampleOperatorArgs sampleOperator sampleOperatorLog).1
        sampleOperatorRes).1
      sampleOperatorPatched
      (sampleMetricsArgs sampleMetrics sampleMetricsLog).1
      (sampleResources (sampleMetricsArgs sampleMetrics sampleMetricsLog).1 sampleMetricsRes).1
      sampleMetricsPatched
      rfl rfl rfl rfl rfl rfl rfl rfl rfl rfl rfl rfl rfl rfl⟩

/-- C6: in a run of the chain from `sFnUpdateKedaDeployment`, with any fuel, if a
recorded call of an update function failed with `e`, then the run stopped with
`e` and without reaching `sFnApply`, the failing call is the last one recorded and
every call before it succeeded (so nothing later in the chain ran), and the CR
ends with its state Error and the condition Installed=False, reason
DeploymentUpdateErr, message `e`.  In particular, when the operator look-up finds
`u`, the operator-logging stage is skipped or succeeds and the operator-resources
update fails with `e`, a run with fuel 3 or more stops there: the history holds
the operator look-up, the args call if there was one, and the failing resources
call, and no metrics-server look-up.

The same is proved for each of the six patch stages from what the update functions
return.  Let the look-ups succeed and the stages before the one considered be
skipped or succeed (`StagePassed`).  If the update of that stage fails with `e`
(`StageFailed`), a run with enough fuel to get there stops with `e` and without
requeue; the targets hold what the calls made so far left, the CR is
`UpdateStateFromErr` of the CR at the start with condition type Installed, reason
DeploymentUpdateErr and `e`, and the history ends with the failing call: no later
update function was called, for an operator stage no metrics-server look-up was
made, and `sFnApply` was not reached.  That CR has state Error and holds the
condition Installed=False with reason DeploymentUpdateErr and the message of `e`. -/
theorem C6_failure_isolation (env : Collab) (m : Machine) (n : Nat) :
    (∀ (evs : List Event) (R : Type) (u : Ptr) (update : UpdateFn R) (d : R) (e : GoError),
        (runChain env n stateFn.sFnUpdateKedaDeployment m).machine.log = m.log ++ evs →
        Event.updateObj R u update d (some e) ∈ evs →
        runChain env n stateFn.sFnUpdateKedaDeployment m =
            Outcome.stopped (some ⟨false, 0⟩) (some e)
              (runChain env n stateFn.sFnUpdateKedaDeployment m).machine ∧
          (∀ m1, runChain env n stateFn.sFnUpdateKedaDeployment m ≠ Outcome.reachedApply m1) ∧
          (∃ pre, evs = pre ++ [Event.updateObj R u update d (some e)] ∧
            ∀ y ∈ pre, y.failure = none) ∧
          (runChain env n stateFn.sFnUpdateKedaDeployment m).machine.s.instance_ =
            UpdateStateFromErr m.s.instance_ ConditionTypeInstalled
              ConditionReasonDeploymentUpdateErr e ∧
          (runChain env n stateFn.sFnUpdateKedaDeployment m).machine.s.instance_.Status.State =
            State.Error ∧
          (⟨"Installed", ConditionStatus.ConditionFalse, "DeploymentUpdateErr", e.msg⟩ :
              Condition) ∈
            (runChain env n
              stateFn.sFnUpdateKedaDeployment m).machine.s.instance_.Status.Conditions) ∧
      (∀ (u : Ptr) (ro : ResourceRequirements) (o o1 : Unstructured) (e : GoError)
          (evs0 : List Event),
        env.kedaManagerDeployment m.r = Except.ok u →
        ((loggingOperatorCfg (some m.s.instance_) = none ∧ o = m.r.Objs u ∧ evs0 = []) ∨
          ∃ lo, loggingOperatorCfg (some m.s.instance_) = some lo ∧
            env.updateKedaOperatorContainer0Args (m.r.Objs u) lo = (o, none) ∧
            evs0 =
              [Event.updateObj LoggingOperatorCfg u env.updateKedaOperatorContainer0Args lo
                none]) →
        operatorResources (some m.s.instance_) = some ro →
        env.updateKedaContanier0Resources o ro = (o1, some e) →
        runChain env (n + 3) stateFn.sFnUpdateKedaDeployment m =
            Outcome.stopped (some ⟨false, 0⟩) (some e)
              ⟨setObj m.r u o1,
                ⟨UpdateStateFromErr m.s.instance_ ConditionTypeInstalled
                  ConditionReasonDeploymentUpdateErr e⟩,
                m.log ++ [Event.kedaManagerDeployment (Except.ok u)] ++ evs0 ++
                  [Event.updateObj ResourceRequirements u env.updateKedaContanier0Resources ro
                    (some e)]⟩ ∧
          ∀ res, Event.kedaMetricsServerDeployment res ∉
            [Event.kedaManagerDeployment (Except.ok u)] ++ evs0 ++
              [Event.updateObj ResourceRequirements u env.updateKedaContanier0Resources ro
                (some e)]) ∧
      (∀ (u : Ptr) (o1 o2 o3 : Unstructured) (evs1 evs2 : List Event) (ev : Event)
          (e : GoError),
        env.kedaManagerDeployment m.r = Except.ok u →
        (StageFailed loggingOperatorCfg env.updateKedaOperatorContainer0Args u m.s.instance_
              (m.r.Objs u) o1 e ev →
            runChain env (n + 2) stateFn.sFnUpdateKedaDeployment m =
                Outcome.stopped (some ⟨false, 0⟩) (some e)
                  ⟨setObj m.r u o1,
                    ⟨UpdateStateFromErr m.s.instance_ ConditionTypeInstalled
                    ConditionReasonDeploymentUpdateErr e⟩,
                    m.log ++ [Event.kedaManagerDeployment (Except.ok u)] ++ [ev]⟩ ∧
              ∀ res, Event.kedaMetricsServerDeployment res ∉
                [Event.kedaManagerDeployment (Except.ok u)] ++ [ev]) ∧
        (StagePassed loggingOperatorCfg env.updateKedaOperatorContainer0Args u m.s.instance_
              (m.r.Objs u) o1 evs1 →
          StageFailed operatorResources env.updateKedaContanier0Resources u m.s.instance_
              o1 o2 e ev →
            runChain env (n + 3) stateFn.sFnUpdateKedaDeployment m =
                Outcome.stopped (some ⟨false, 0⟩) (some e)
                  ⟨setObj m.r u o2,
                    ⟨UpdateStateFromErr m.s.instance_ ConditionTypeInstalled
                    ConditionReasonDeploymentUpdateErr e⟩,
                    m.log ++ [Event.kedaManagerDeployment (Except.ok u)] ++ evs1 ++ [ev]⟩ ∧
              ∀ res, Event.kedaMetricsServerDeployment res ∉
                [Event.kedaManagerDeployment (Except.ok u)] ++ evs1 ++ [ev]) ∧
        (StagePassed loggingOperatorCfg env.updateKedaOperatorContainer0Args u m.s.instance_
              (m.r.Objs u) o1 evs1 →
          StagePassed operatorResources env.updateKedaContanier0Resources u m.s.instance_
              o1 o2 evs2 →
          StageFailed envVars env.updateKedaContanierEnvs u m.s.instance_ o2 o3 e ev →
            runChain env (n + 4) stateFn.sFnUpdateKedaDeployment m =
                Outcome.stopped (some ⟨false, 0⟩) (some e)
                  ⟨setObj m.r u o3,
                    ⟨UpdateStateFromErr m.s.instance_ ConditionTypeInstalled
                    ConditionReasonDeploymentUpdateErr e⟩,
                    m.log ++ [Event.kedaManagerDeployment (Except.ok u)] ++ evs1 ++ evs2 ++ [ev]⟩ ∧
              ∀ res, Event.kedaMetricsServerDeployment res ∉
                [Event.kedaManagerDeployment (Except.ok u)] ++ evs1 ++ evs2 ++ [ev])) ∧
      (∀ (u v : Ptr) (o1 o2 o3 p1 p2 p3 : Unstructured)
          (evs1 evs2 evs3 evs4 evs5 : List Event) (ev : Event) (e : GoError),
        env.kedaManagerDeployment m.r = Except.ok u →
        StagePassed loggingOperatorCfg env.updateKedaOperatorContainer0Args u m.s.instance_
            (m.r.Objs u) o1 evs1 →
        StagePassed operatorResources env.updateKedaContanier0Resources u m.s.instance_
            o1 o2 evs2 →
        StagePassed envVars env.updateKedaContanierEnvs u m.s.instance_ o2 o3 evs3 →
        env.kedaMetricsServerDeployment (setObj m.r u o3) = Except.ok v →
        (StageFailed loggingMetricsSrvCfg env.updateKedaMetricsServerContainer0Args v
              m.s.instance_ ((setObj m.r u o3).Objs v) p1 e ev →
            runChain env (n + 6) stateFn.sFnUpdateKedaDeployment m =
              Outcome.stopped (some ⟨false, 0⟩) (some e)
                ⟨setObj (setObj m.r u o3) v p1,
                  ⟨UpdateStateFromErr m.s.instance_ ConditionTypeInstalled
                    ConditionReasonDeploymentUpdateErr e⟩,
                  m.log ++ [Event.kedaManagerDeployment (Except.ok u)] ++ evs1 ++ evs2 ++ evs3 ++
                    [Event.kedaMetricsServerDeployment (Except.ok v)] ++ [ev]⟩) ∧
        (StagePassed loggingMetricsSrvCfg env.updateKedaMetricsServerContainer0Args v
              m.s.instance_ ((setObj m.r u o3).Objs v) p1 evs4 →
          StageFailed metricsSvrResources env.updateKedaContanier0Resources v m.s.instance_
              p1 p2 e ev →
            runChain env (n + 7) stateFn.sFnUpdateKedaDeployment m =
              Outcome.stopped (some ⟨false, 0⟩) (some e)
                ⟨setObj (setObj m.r u o3) v p2,
                  ⟨UpdateStateFromErr m.s.instance_ ConditionTypeInstalled
                    ConditionReasonDeploymentUpdateErr e⟩,
                  m.log ++ [Event.kedaManagerDeployment (Except.ok u)] ++ evs1 ++ evs2 ++ evs3 ++
                    [Event.kedaMetricsServerDeployment (Except.ok v)] ++ evs4 ++ [ev]⟩) ∧
        (StagePassed loggingMetricsSrvCfg env.updateKedaMetricsServerContainer0Args v
              m.s.instance_ ((setObj m.r u o3).Objs v) p1 evs4 →
          StagePassed metricsSvrResources env.updateKedaContanier0Resources v m.s.instance_
              p1 p2 evs5 →
          StageFailed envVars env.updateKedaContanierEnvs v m.s.instance_ p2 p3 e ev →
            runChain env (n + 8) stateFn.sFnUpdateKedaDeployment m =
              Outcome.stopped (some ⟨false, 0⟩) (some e)
                ⟨setObj (setObj m.r u o3) v p3,
                  ⟨UpdateStateFromErr m.s.instance_ ConditionTypeInstalled
                    ConditionReasonDeploymentUpdateErr e⟩,
                  m.log ++ [Event.kedaManagerDeployment (Except.ok u)] ++ evs1 ++ evs2 ++ evs3 ++
                    [Event.kedaMetricsServerDeployment (Except.ok v)] ++ evs4 ++ evs5 ++ [ev]⟩)) ∧
      ∀ (k : Keda) (e : GoError),
        (UpdateStateFromErr k ConditionTypeInstalled
            ConditionReasonDeploymentUpdateErr e).Status.State = State.Error ∧
          (⟨"Installed", ConditionStatus.ConditionFalse, "DeploymentUpdateErr", e.msg⟩ :
              Condition) ∈
            (UpdateStateFromErr k ConditionTypeInstalled
              ConditionReasonDeploymentUpdateErr e).Status.Conditions ∧
          (UpdateStateFromErr k ConditionTypeInstalled
            ConditionReasonDeploymentUpdateErr e).Spec = k.Spec := by
  refine ⟨?_, ?_, ?_, ?_, ?_⟩
  · intro evs R u update d e hrun hfail
    obtain ⟨pre, post, hsplit⟩ := List.append_of_mem hfail
    have hx : (Event.updateObj R u update d (some e)).failure = some e := rfl
    rcases runChain_ChainInv env n stateFn.sFnUpdateKedaDeployment m with
      ⟨evs1, hlog, hall, _, _⟩ | ⟨evs1, ev, e1, m1, hout, hlog, hall, hev, hk⟩
    · exfalso
      rw [hrun] at hlog
      have heq : evs = evs1 := List.append_cancel_left hlog
      have := hall _ (heq ▸ hfail)
      rw [hx] at this
      cases this
    · have hmach : (runChain env n stateFn.sFnUpdateKedaDeployment m).machine = m1 := by
        rw [hout]; rfl
      rw [hmach] at hrun
      rw [hrun, List.append_assoc] at hlog
      have heq : evs = evs1 ++ [ev] := List.append_cancel_left hlog
      obtain ⟨hpost, hxev, hpre⟩ :=
        failing_event_is_last _ ev e hx evs1 pre post hall (heq ▸ hsplit)
      have he1 : e1 = e := by
        rw [← hxev, hx] at hev
        exact (Option.some.inj hev).symm
      subst he1
      rw [hmach]
      refine ⟨hout, ?_, ⟨evs1, by rw [heq, hxev], hall⟩, hk, ?_, ?_⟩
      · intro m2 h2
        rw [hout] at h2
        cases h2
      · rw [hk]; rfl
      · rw [hk]; exact mem_setStatusCondition _ _
  · intro u ro o o1 e evs0 hu hlog hro hfail
    rw [runChain_keda_ok env (n + 2) m u hu, buildSfnUpdateOperatorLogging]
    rcases hlog with ⟨hnone, ho, hevs⟩ | ⟨lo, hsome, hupd, hevs⟩
    · rw [runChain_stage_none env (n + 1) u _ loggingOperatorCfg _
          ⟨m.r, m.s, m.log ++ [Event.kedaManagerDeployment (Except.ok u)]⟩ hnone,
        buildSfnUpdateOperatorResources,
        runChain_stage_err env n u _ operatorResources _
          ⟨m.r, m.s, m.log ++ [Event.kedaManagerDeployment (Except.ok u)]⟩ ro e hro
          (by simp [← ho, hfail])]
      subst hevs
      simp [← ho, hfail]
    · rw [runChain_stage_ok env (n + 1) u _ loggingOperatorCfg _
          ⟨m.r, m.s, m.log ++ [Event.kedaManagerDeployment (Except.ok u)]⟩ lo hsome
          (by simp [hupd]),
        buildSfnUpdateOperatorResources,
        runChain_stage_err env n u _ operatorResources _
          ⟨setObj m.r u (env.updateKedaOperatorContainer0Args (m.r.Objs u) lo).1, m.s,
            m.log ++ [Event.kedaManagerDeployment (Except.ok u)] ++
              [Event.updateObj LoggingOperatorCfg u env.updateKedaOperatorContainer0Args lo
                none]⟩
          ro e hro (by simp [hupd, setObj_same, hfail])]
      subst hevs
      simp [hupd, setObj_same, hfail, setObj_setObj]
  · obtain ⟨r, ⟨k⟩, log⟩ := m
    intro u o1 o2 o3 evs1 evs2 ev e hu
    dsimp only at hu ⊢
    refine ⟨?_, ?_, ?_⟩
    · intro hf
      refine ⟨?_, ?_⟩
      · rw [runChain_keda_ok env (n + 1) ⟨r, ⟨k⟩, log⟩ u hu, buildSfnUpdateOperatorLogging,
          runChain_stage_failed env n u _ _ _ r k _ _ o1 e ev rfl hf]
      · intro res hmem
        simp at hmem
        exact StageFailed_no_lookup _ _ _ _ _ _ _ _ hf res hmem
    · intro h1 hf
      refine ⟨?_, ?_⟩
      · rw [runChain_keda_ok env (n + 2) ⟨r, ⟨k⟩, log⟩ u hu, buildSfnUpdateOperatorLogging,
          runChain_stage_passed env (n + 1) u _ _ _ r k _ _ o1 evs1 rfl h1,
          buildSfnUpdateOperatorResources,
          runChain_stage_failed env n u _ _ _ _ k _ _ o2 e ev (setObj_same _ _ _) hf]
        simp only [setObj_setObj]
      · intro res hmem
        simp at hmem
        rcases hmem with hmem | hmem
        · exact StagePassed_no_lookup _ _ _ _ _ _ _ h1 res hmem
        · exact StageFailed_no_lookup _ _ _ _ _ _ _ _ hf res hmem
    · intro h1 h2 hf
      refine ⟨?_, ?_⟩
      · rw [runChain_keda_ok env (n + 3) ⟨r, ⟨k⟩, log⟩ u hu, buildSfnUpdateOperatorLogging,
          runChain_stage_passed env (n + 2) u _ _ _ r k _ _ o1 evs1 rfl h1,
          buildSfnUpdateOperatorResources,
          runChain_stage_passed env (n + 1) u _ _ _ _ k _ _ o2 evs2 (setObj_same _ _ _) h2,
          buildSfnUpdateOperatorEnvs,
          runChain_stage_failed env n u _ _ _ _ k _ _ o3 e ev (setObj_same _ _ _) hf]
        simp only [setObj_setObj]
      · intro res hmem
        simp at hmem
        rcases hmem with hmem | hmem | hmem
        · exact StagePassed_no_lookup _ _ _ _ _ _ _ h1 res hmem
        · exact StagePassed_no_lookup _ _ _ _ _ _ _ h2 res hmem
        · exact StageFailed_no_lookup _ _ _ _ _ _ _ _ hf res hmem
  · obtain ⟨r, ⟨k⟩, log⟩ := m
    intro u v o1 o2 o3 p1 p2 p3 evs1 evs2 evs3 evs4 evs5 ev e hu h1 h2 h3 hv
    dsimp only at hu h1 h2 h3 hv ⊢
    refine ⟨?_, ?_, ?_⟩
    · intro hf
      rw [runChain_operator_passed env (n + 2) r k log u o1 o2 o3 evs1 evs2 evs3 hu h1 h2 h3,
        runChain_metrics_ok env (n + 1) ⟨setObj r u o3, ⟨k⟩, _⟩ v hv,
        buildSfnUpdateMetricsSvrLogging,
        runChain_stage_failed env n v _ _ _ (setObj r u o3) k _ _ p1 e ev rfl hf]
    · intro h4 hf
      rw [runChain_operator_passed env (n + 3) r k log u o1 o2 o3 evs1 evs2 evs3 hu h1 h2 h3,
        runChain_metrics_ok env (n + 2) ⟨setObj r u o3, ⟨k⟩, _⟩ v hv,
        buildSfnUpdateMetricsSvrLogging,
        runChain_stage_passed env (n + 1) v _ _ _ (setObj r u o3) k _ _ p1 evs4 rfl h4,
        buildSfnUpdateMetricsSvrResources,
        runChain_stage_failed env n v _ _ _ _ k _ _ p2 e ev (setObj_same _ _ _) hf]
      simp only [setObj_setObj]
    · intro h4 h5 hf
      rw [runChain_operator_passed env (n + 4) r k log u o1 o2 o3 evs1 evs2 evs3 hu h1 h2 h3,
        runChain_metrics_ok env (n + 3) ⟨setObj r u o3, ⟨k⟩, _⟩ v hv,
        buildSfnUpdateMetricsSvrLogging,
        runChain_stage_passed env (n + 2) v _ _ _ (setObj r u o3) k _ _ p1 evs4 rfl h4,
        buildSfnUpdateMetricsSvrResources,
        runChain_stage_passed env (n + 1) v _ _ _ _ k _ _ p2 evs5 (setObj_same _ _ _) h5,
        buildSfnUpdateMetricsSvrEnvVars,
        runChain_stage_failed env n v _ _ _ _ k _ _ p3 e ev (setObj_same _ _ _) hf]
      simp only [setObj_setObj]
  · intro k e
    exact ⟨rfl, mem_setStatusCondition _ _, rfl⟩

/-- Witness of C6: the CR of the controller test with a resources update that fails, with
an env update that fails, and with a metrics-server args update that fails. -/
theorem C6_failure_isolation_witness :
    (runChain failingEnv 6 stateFn.sFnUpdateKedaDeployment
        sampleMachine).machine.s.instance_.Status.State = State.Error ∧
      runChain failingEnv 9 stateFn.sFnUpdateKedaDeployment sampleMachine =
        Outcome.stopped (some ⟨false, 0⟩) (some ⟨"resources patch refused"⟩)
          ⟨setObj sampleFsm 0 (sampleOperatorArgs sampleOperator sampleOperatorLog).1,
            ⟨UpdateStateFromErr sampleKeda ConditionTypeInstalled
              ConditionReasonDeploymentUpdateErr ⟨"resources patch refused"⟩⟩,
            [Event.kedaManagerDeployment (Except.ok 0),
              Event.updateObj LoggingOperatorCfg 0 sampleOperatorArgs sampleOperatorLog none,
              Event.updateObj ResourceRequirements 0 failingResources sampleOperatorRes
                (some ⟨"resources patch refused"⟩)]⟩ ∧
      runChain envFailingEnv 9 stateFn.sFnUpdateKedaDeployment sampleMachine =
        Outcome.stopped (some ⟨false, 0⟩) (some ⟨"env patch refused"⟩)
          ⟨setObj sampleFsm 0
              (sampleResources (sampleOperatorArgs sampleOperator sampleOperatorLog).1
                sampleOperatorRes).1,
            ⟨UpdateStateFromErr sampleKeda ConditionTypeInstalled
              ConditionReasonDeploymentUpdateErr ⟨"env patch refused"⟩⟩,
            [Event.kedaManagerDeployment (Except.ok 0),
              Event.updateObj LoggingOperatorCfg 0 sampleOperatorArgs sampleOperatorLog none,
              Event.updateObj ResourceRequirements 0 sampleResources sampleOperatorRes none,
              Event.updateObj EnvVars 0 failingEnvs sampleEnvList
                (some ⟨"env patch refused"⟩)]⟩ ∧
      runChain metricsFailingEnv 9 stateFn.sFnUpdateKedaDeployment sampleMachine =
        Outcome.stopped (some ⟨false, 0⟩) (some ⟨"metrics args patch refused"⟩)
          ⟨setObj (setObj sampleFsm 0 sampleOperatorPatched) 1 sampleMetrics,
            ⟨UpdateStateFromErr sampleKeda ConditionTypeInstalled
              ConditionReasonDeploymentUpdateErr ⟨"metrics args patch refused"⟩⟩,
            [Event.kedaManagerDeployment (Except.ok 0),
              Event.updateObj LoggingOperatorCfg 0 sampleOperatorArgs sampleOperatorLog none,
              Event.updateObj ResourceRequirements 0 sampleResources sampleOperatorRes none,
              Event.updateObj EnvVars 0 sampleEnvs sampleEnvList none,
              Event.kedaMetricsServerDeployment (Except.ok 1),
              Event.updateObj LoggingMetricsSrvCfg 1 failingMetricsArgs sampleMetricsLog
                (some ⟨"metrics args patch refused"⟩)]⟩ :=
  ⟨((C6_failure_isolation failingEnv sampleMachine 6).1
      [Event.kedaManagerDeployment (Except.ok 0),
        Event.updateObj LoggingOperatorCfg 0 sampleOperatorArgs sampleOperatorLog none,
        Event.updateObj ResourceRequirements 0 failingResources sampleOperatorRes
          (some ⟨"resources patch refused"⟩)]
      ResourceRequirements 0 failingResources sampleOperatorRes ⟨"resources patch refused"⟩ rfl
      (List.mem_cons_of_mem _ (List.mem_cons_of_mem _ (List.mem_cons_self _ _)))).2.2.2.2.1,
    ((C6_failure_isolation failingEnv sampleMachine 6).2.1 0 sampleOperatorRes
      (sampleOperatorArgs sampleOperator sampleOperatorLog).1
      (sampleOperatorArgs sampleOperator sampleOperatorLog).1 ⟨"resources patch refused"⟩
      [Event.updateObj LoggingOperatorCfg 0 sampleOperatorArgs sampleOperatorLog none] rfl
      (Or.inr ⟨sampleOperatorLog, rfl, rfl, rfl⟩) rfl rfl).1,
    (((C6_failure_isolation envFailingEnv sampleMachine 5).2.2.1 0
      (sampleOperatorArgs sampleOperator sampleOperatorLog).1
      (sampleResources (sampleOperatorArgs sampleOperator sampleOperatorLog).1
        sampleOperatorRes).1
      (sampleResources (sampleOperatorArgs sampleOperator sampleOperatorLog).1
        sampleOperatorRes).1
      [Event.updateObj LoggingOperatorCfg 0 sampleOperatorArgs sampleOperatorLog none]
      [Event.updateObj ResourceRequirements 0 sampleResources sampleOperatorRes none]
      (Event.updateObj EnvVars 0 failingEnvs sampleEnvList (some ⟨"env patch refused"⟩))
      ⟨"env patch refused"⟩ rfl).2.2
      (Or.inr ⟨sampleOperatorLog, rfl, rfl, rfl⟩) (Or.inr ⟨sampleOperatorRes, rfl, rfl, rfl⟩)
      ⟨sampleEnvList, rfl, rfl, rfl⟩).1,
    ((C6_failure_isolation metricsFailingEnv sampleMachine 3).2.2.2.1 0 1
      (sampleOperatorArgs sampleOperator sampleOperatorLog).1
      (sampleResources (sampleOperatorArgs sampleOperator sampleOperatorLog).1
        sampleOperatorRes).1
      sampleOperatorPatched sampleMetrics sampleMetrics sampleMetrics
      [Event.updateObj LoggingOperatorCfg 0 sampleOperatorArgs sampleOperatorLog none]
      [Event.updateObj ResourceRequirements 0 sampleResources sampleOperatorRes none]
      [Event.updateObj EnvVars 0 sampleEnvs sampleEnvList none] [] []
      (Event.updateObj LoggingMetricsSrvCfg 1 failingMetricsArgs sampleMetricsLog
        (some ⟨"metrics args patch refused"⟩))
      ⟨"metrics args patch refused"⟩ rfl
      (Or.inr ⟨sampleOperatorLog, rfl, rfl, rfl⟩) (Or.inr ⟨sampleOperatorRes, rfl, rfl, rfl⟩)
      (Or.inr ⟨sampleEnvList, rfl, rfl, rfl⟩) rfl).1 ⟨sampleMetricsLog, rfl, rfl, rfl⟩⟩

/-- C8: the operator env stage on `u` and the metrics-server env stage on `v` each make
exactly one call, of the same function `updateKedaContanierEnvs`, with the whole
`spec.env` list of the CR as data, the first on the object at `u` and the second
on the object at `v`, and each target becomes what that call leaves.  In a run of
the chain that reaches `sFnApply`, the operator look-up found some `u`, the
metrics-server look-up found some `v`, and the history holds these two calls, on
`u` before the metrics-server look-up and on `v` as the last call. -/
theorem C8_env_list_shared (env : Collab) (m : Machine) (u v : Ptr) :
    (call env (buildSfnUpdateOperatorEnvs env u) m).2.log =
        m.log ++
          [Event.updateObj EnvVars u env.updateKedaContanierEnvs m.s.instance_.Spec.Env
            (env.updateKedaContanierEnvs (m.r.Objs u) m.s.instance_.Spec.Env).2] ∧
      (call env (buildSfnUpdateMetricsSvrEnvVars env v) m).2.log =
        m.log ++
          [Event.updateObj EnvVars v env.updateKedaContanierEnvs m.s.instance_.Spec.Env
            (env.updateKedaContanierEnvs (m.r.Objs v) m.s.instance_.Spec.Env).2] ∧
      (call env (buildSfnUpdateOperatorEnvs env u) m).2.r.Objs u =
        (env.updateKedaContanierEnvs (m.r.Objs u) m.s.instance_.Spec.Env).1 ∧
      (call env (buildSfnUpdateMetricsSvrEnvVars env v) m).2.r.Objs v =
        (env.updateKedaContanierEnvs (m.r.Objs v) m.s.instance_.Spec.Env).1 ∧
      ∀ (n : Nat) (m1 : Machine),
        runChain env n stateFn.sFnUpdateKedaDeployment m = Outcome.reachedApply m1 →
        ∃ (a b : Ptr) (pre mid : List Event),
          env.kedaManagerDeployment m.r = Except.ok a ∧
          pre.head? = some (Event.kedaManagerDeployment (Except.ok a)) ∧
          mid.head? = some (Event.kedaMetricsServerDeployment (Except.ok b)) ∧
          m1.log =
            m.log ++ pre ++
              [Event.updateObj EnvVars a env.updateKedaContanierEnvs m.s.instance_.Spec.Env
                none] ++ mid ++
              [Event.updateObj EnvVars b env.updateKedaContanierEnvs m.s.instance_.Spec.Env
                none] := by
  have hstage : ∀ (w : Ptr) (next : stateFn),
      (call env (buildSfnUpdateObject w env.updateKedaContanierEnvs envVars next) m).2.log =
          m.log ++
            [Event.updateObj EnvVars w env.updateKedaContanierEnvs m.s.instance_.Spec.Env
              (env.updateKedaContanierEnvs (m.r.Objs w) m.s.instance_.Spec.Env).2] ∧
        (call env (buildSfnUpdateObject w env.updateKedaContanierEnvs envVars next) m).2.r.Objs w =
          (env.updateKedaContanierEnvs (m.r.Objs w) m.s.instance_.Spec.Env).1 := by
    intro w next
    cases he : (env.updateKedaContanierEnvs (m.r.Objs w) m.s.instance_.Spec.Env).2 with
    | none =>
      rw [call_buildSfnUpdateObject_ok env w _ envVars next m m.s.instance_.Spec.Env rfl he]
      exact ⟨rfl, setObj_same _ _ _⟩
    | some e =>
      rw [call_buildSfnUpdateObject_err env w _ envVars next m m.s.instance_.Spec.Env e rfl he]
      exact ⟨rfl, setObj_same _ _ _⟩
  refine ⟨(hstage u _).1, (hstage v _).1, (hstage u _).2, (hstage v _).2, ?_⟩
  intro n m1 hrun
  obtain ⟨r, ⟨k⟩, log⟩ := m
  obtain ⟨n1, a, -, ha, h1⟩ := runChain_keda_reached env n r k log m1 hrun
  rw [buildSfnUpdateOperatorLogging] at h1
  obtain ⟨n2, o1, ev1, -, h2, -⟩ := runChain_stage_reached env n1 _ _ _ _ _ _ _ _ h1
  rw [buildSfnUpdateOperatorResources] at h2
  obtain ⟨n3, o2, ev2, -, h3, -⟩ := runChain_stage_reached env n2 _ _ _ _ _ _ _ _ h2
  rw [buildSfnUpdateOperatorEnvs] at h3
  obtain ⟨n4, o3, ev3, -, h4, c3⟩ := runChain_stage_reached env n3 _ _ _ _ _ _ _ _ h3
  obtain ⟨n5, b, -, -, h5⟩ := runChain_metrics_reached env n4 _ _ _ _ h4
  rw [buildSfnUpdateMetricsSvrLogging] at h5
  obtain ⟨n6, p1, ev4, -, h6, -⟩ := runChain_stage_reached env n5 _ _ _ _ _ _ _ _ h5
  rw [buildSfnUpdateMetricsSvrResources] at h6
  obtain ⟨n7, p2, ev5, -, h7, -⟩ := runChain_stage_reached env n6 _ _ _ _ _ _ _ _ h6
  rw [buildSfnUpdateMetricsSvrEnvVars] at h7
  obtain ⟨n8, p3, ev6, -, h8, c6⟩ := runChain_stage_reached env n7 _ _ _ _ _ _ _ _ h7
  have hm1 := runChain_apply_reached env n8 _ _ h8
  subst hm1
  have hev3 : ev3 = [Event.updateObj EnvVars a env.updateKedaContanierEnvs k.Spec.Env none] := by
    rcases c3 with ⟨hn, -, -⟩ | ⟨d, hd, -, hev⟩
    · simp [envVars] at hn
    · simp [envVars] at hd
      rw [hev, hd]
  have hev6 : ev6 = [Event.updateObj EnvVars b env.updateKedaContanierEnvs k.Spec.Env none] := by
    rcases c6 with ⟨hn, -, -⟩ | ⟨d, hd, -, hev⟩
    · simp [envVars] at hn
    · simp [envVars] at hd
      rw [hev, hd]
  refine ⟨a, b, [Event.kedaManagerDeployment (Except.ok a)] ++ ev1 ++ ev2,
    [Event.kedaMetricsServerDeployment (Except.ok b)] ++ ev4 ++ ev5, ha, by simp, by simp, ?_⟩
  simp [hev3, hev6]

/-- Witness of C8: the run of the chain on the CR of the controller test. -/
theorem C8_env_list_shared_witness :
    ∃ (a b : Ptr) (pre mid : List Event),
      sampleEnv.kedaManagerDeployment sampleFsm = Except.ok a ∧
      pre.head? = some (Event.kedaManagerDeployment (Except.ok a)) ∧
      mid.head? = some (Event.kedaMetricsServerDeployment (Except.ok b)) ∧
      (runChain sampleEnv 9 stateFn.sFnUpdateKedaDeployment sampleMachine).machine.log =
        [] ++ pre ++ [Event.updateObj EnvVars a sampleEnvs sampleEnvList none] ++ mid ++
          [Event.updateObj EnvVars b sampleEnvs sampleEnvList none] :=
  (C8_env_list_shared sampleEnv sampleMachine 0 1).2.2.2.2 9
    (runChain sampleEnv 9 stateFn.sFnUpdateKedaDeployment sampleMachine).machine rfl

/-- C10: if `keda.IsInstalled` reports an installation or returns an error, `main` exits
with status 1, its last step is `os.Exit(1)`, and the only steps before it are the
check itself and one error log line: the manager is not created, the manifest is
not opened or loaded, the reconciler is not created or registered, and the manager
is not started.  The manager is created exactly when the outcome is `(false, nil)`. -/
theorem C10_preflight_refusal (o : Outcomes) :
    ((o.IsInstalled.1 = true ∨ o.IsInstalled.2 ≠ none) →
        (main o).2 = 1 ∧
          (∃ msg, (main o).1 = [Action.IsInstalled, Action.Error msg, Action.Exit 1]) ∧
          Action.NewManager ∉ (main o).1 ∧ Action.Open ∉ (main o).1 ∧
          Action.LoadData ∉ (main o).1 ∧ Action.NewKedaReconciler ∉ (main o).1 ∧
          Action.SetupWithManager ∉ (main o).1 ∧ Action.Start ∉ (main o).1) ∧
      (Action.NewManager ∈ (main o).1 ↔ o.IsInstalled = (false, none)) := by
  obtain ⟨⟨inst, ierr⟩, nm, op, ld, bd, sw, hz, rz, st⟩ := o
  constructor
  · intro h
    cases ierr with
    | some e => simp [main]
    | none =>
      cases inst with
      | true => simp [main]
      | false => simp at h
  · cases ierr with
    | some e => simp [main]
    | none =>
      cases inst with
      | true => simp [main]
      | false =>
        simp only [main]
        cases nm <;> cases ld <;> cases bd <;> cases sw <;> cases hz <;> cases rz <;>
          cases st <;> simp

/-- Witness of C10: a cluster with an existing installation, and a clean cluster. -/
theorem C10_preflight_refusal_witness :
    main conflictingStart =
        ([Action.IsInstalled,
            Action.Error
              "keda-manager can't be installed on a cluster with an existing Keda installation, exiting..",
            Action.Exit 1], 1) ∧
      (main conflictingStart).2 = 1 ∧ Action.NewManager ∉ (main conflictingStart).1 ∧
      Action.NewManager ∈ (main cleanStart).1 :=
  ⟨rfl, ((C10_preflight_refusal conflictingStart).1 (Or.inl rfl)).1,
    ((C10_preflight_refusal conflictingStart).1 (Or.inl rfl)).2.2.1,
    (C10_preflight_refusal cleanStart).2.mpr rfl⟩

/-! ## The env selector and the CR snapshot -/

/-- C11: for every CR, `envVars` returns a value, the `spec.env` list itself, also when
the list is empty.  Hence on every machine the operator env stage and the
metrics-server env stage each record a call of `updateKedaContanierEnvs` with
that list and never leave the machine as it was (the branch for an absent value
is not taken).  When that call fails with `e` the stage returns
`stopWithErrorAnNoRequeue e` and a run that starts at the stage stops there; and
this does happen on a CR that declares no environment variables: with a failing
env update, a run of the whole chain on such a CR stops with the error. -/
theorem C11_env_selector_never_absent (env : Collab) (m : Machine) (u : Ptr) :
    (∀ k : Keda, envVars (some k) = some k.Spec.Env) ∧
      (∀ k : Keda, k.Spec.Env = [] → envVars (some k) = some []) ∧
      (call env (buildSfnUpdateOperatorEnvs env u) m).2.log =
        m.log ++
          [Event.updateObj EnvVars u env.updateKedaContanierEnvs m.s.instance_.Spec.Env
            (env.updateKedaContanierEnvs (m.r.Objs u) m.s.instance_.Spec.Env).2] ∧
      (call env (buildSfnUpdateMetricsSvrEnvVars env u) m).2.log =
        m.log ++
          [Event.updateObj EnvVars u env.updateKedaContanierEnvs m.s.instance_.Spec.Env
            (env.updateKedaContanierEnvs (m.r.Objs u) m.s.instance_.Spec.Env).2] ∧
      (call env (buildSfnUpdateOperatorEnvs env u) m).2 ≠ m ∧
      (call env (buildSfnUpdateMetricsSvrEnvVars env u) m).2 ≠ m ∧
      (∀ e, (env.updateKedaContanierEnvs (m.r.Objs u) m.s.instance_.Spec.Env).2 = some e →
        (call env (buildSfnUpdateOperatorEnvs env u) m).1 = stopWithErrorAnNoRequeue e ∧
          (call env (buildSfnUpdateMetricsSvrEnvVars env u) m).1 = stopWithErrorAnNoRequeue e ∧
          ∀ n,
            runChain env (n + 1) (buildSfnUpdateOperatorEnvs env u) m =
                Outcome.stopped (some ⟨false, 0⟩) (some e)
                  (call env (buildSfnUpdateOperatorEnvs env u) m).2 ∧
              runChain env (n + 1) (buildSfnUpdateMetricsSvrEnvVars env u) m =
                Outcome.stopped (some ⟨false, 0⟩) (some e)
                  (call env (buildSfnUpdateMetricsSvrEnvVars env u) m).2) ∧
      ∃ (env0 : Collab) (m0 m1 : Machine) (e : GoError),
        m0.s.instance_.Spec.Env = [] ∧
          runChain env0 9 stateFn.sFnUpdateKedaDeployment m0 =
            Outcome.stopped (some ⟨false, 0⟩) (some e) m1 ∧
          m1.log =
            m0.log ++
              [Event.kedaManagerDeployment (Except.ok 0),
                Event.updateObj EnvVars 0 env0.updateKedaContanierEnvs [] (some e)] := by
  refine ⟨fun _ => rfl, ?_, call_env_stage env u _ m, call_env_stage env u _ m,
    log_append_ne _ m _ (call_env_stage env u _ m),
    log_append_ne _ m _ (call_env_stage env u _ m), ?_, ?_⟩
  · intro k hk
    simp [envVars, hk]
  · intro e he
    have h1 := call_buildSfnUpdateObject_err env u env.updateKedaContanierEnvs envVars
      stateFn.sFnUpdateMetricsServerDeployment m m.s.instance_.Spec.Env e rfl he
    have h2 := call_buildSfnUpdateObject_err env u env.updateKedaContanierEnvs envVars
      stateFn.sFnApply m m.s.instance_.Spec.Env e rfl he
    refine ⟨by rw [buildSfnUpdateOperatorEnvs, h1], by rw [buildSfnUpdateMetricsSvrEnvVars, h2],
      ?_⟩
    intro n
    constructor
    · rw [buildSfnUpdateOperatorEnvs, h1,
        runChain_stage_err env n u _ envVars _ m m.s.instance_.Spec.Env e rfl he]
    · rw [buildSfnUpdateMetricsSvrEnvVars, h2,
        runChain_stage_err env n u _ envVars _ m m.s.instance_.Spec.Env e rfl he]
  · exact ⟨envFailingEnv, bareMachine, _, ⟨"env patch refused"⟩, rfl, rfl, rfl⟩

/-- Witness of C11: the operator env stage on the CR that declares nothing, with an env
update that fails. -/
theorem C11_env_selector_never_absent_witness :
    bareMachine.s.instance_.Spec.Env = [] ∧
      (envFailingEnv.updateKedaContanierEnvs (bareMachine.r.Objs 0)
          bareMachine.s.instance_.Spec.Env).2 = some ⟨"env patch refused"⟩ ∧
      (call envFailingEnv (buildSfnUpdateOperatorEnvs envFailingEnv 0) bareMachine).1 =
        stopWithErrorAnNoRequeue ⟨"env patch refused"⟩ ∧
      (call envFailingEnv (buildSfnUpdateOperatorEnvs envFailingEnv 0) bareMachine).2 ≠
        bareMachine :=
  ⟨rfl, rfl,
    ((C11_env_selector_never_absent envFailingEnv bareMachine 0).2.2.2.2.2.2.1
      ⟨"env patch refused"⟩ rfl).1,
    (C11_env_selector_never_absent envFailingEnv bareMachine 0).2.2.2.2.1⟩

/-- C12: let `st` be one of the two deployment look-up states or a stage built by
`buildSfnUpdateObject` (the six patch stages are such stages), with an update
function that only acts on the target and leaves the value it is given alone, as
every `UpdateFn` does.  If `st` returns a next state, the CR snapshot after the
stage is the one before it.  If it returns none, it returns
`stopWithErrorAnNoRequeue e` and the snapshot is `UpdateStateFromErr` of the one
before; so a snapshot that differs was written on an error branch.  A run of
the chain that reaches `sFnApply` has the snapshot it started with. -/
theorem C12_cr_changes_only_on_failure (env : Collab) (st : stateFn) (m : Machine)
    (hst : st = stateFn.sFnUpdateKedaDeployment ∨ st = stateFn.sFnUpdateMetricsServerDeployment ∨
      ∃ (R : Type) (u : Ptr) (update : UpdateFn R) (getData : Option Keda → Option R)
        (next : stateFn), st = buildSfnUpdateObject u update getData next) :
    ((call env st m).1.1 ≠ none → (call env st m).2.s.instance_ = m.s.instance_) ∧
      ((call env st m).1.1 = none →
        ∃ e, (call env st m).1 = stopWithErrorAnNoRequeue e ∧
          (call env st m).2.s.instance_ =
            UpdateStateFromErr m.s.instance_ ConditionTypeInstalled
              ConditionReasonDeploymentUpdateErr e) ∧
      ((call env st m).2.s.instance_ ≠ m.s.instance_ →
        (call env st m).1.1 = none ∧ ∃ e, (call env st m).1.2.2 = some e) ∧
      ∀ n m1, runChain env n st m = Outcome.reachedApply m1 →
        m1.s.instance_ = m.s.instance_ := by
  have hc := call_cases env st m hst
  refine ⟨?_, ?_, ?_, ?_⟩
  · intro hnext
    rcases hc with ⟨nx, _, hk⟩ | ⟨e, hret, _⟩
    · exact hk
    · exfalso
      apply hnext
      rw [hret]
      rfl
  · intro hnone
    rcases hc with ⟨nx, hret, _⟩ | ⟨e, hret, hk⟩
    · rw [hret] at hnone
      simp [switchState] at hnone
    · exact ⟨e, hret, hk⟩
  · intro hne
    rcases hc with ⟨nx, _, hk⟩ | ⟨e, hret, _⟩
    · exact absurd hk hne
    · rw [hret]
      exact ⟨rfl, e, rfl⟩
  · intro n m1 hrun
    rcases runChain_ChainInv env n st m with ⟨evs, _, _, hk, _⟩ | ⟨evs, ev, e, m2, hout, _⟩
    · rw [hrun] at hk
      exact hk
    · rw [hrun] at hout
      cases hout

/-- Witness of C12: the operator-resources stage on the CR of the controller test, once
with an update that succeeds and once with one that fails. -/
theorem C12_cr_changes_only_on_failure_witness :
    (call sampleEnv (buildSfnUpdateOperatorResources sampleEnv 0) sampleMachine).1.1 ≠ none ∧
      (call sampleEnv (buildSfnUpdateOperatorResources sampleEnv 0) sampleMachine).2.s.instance_ =
        sampleKeda ∧
      (call failingEnv (buildSfnUpdateOperatorResources failingEnv 0) sampleMachine).1.1 = none ∧
      ∃ e, (call failingEnv (buildSfnUpdateOperatorResources failingEnv 0) sampleMachine).1 =
          stopWithErrorAnNoRequeue e ∧
        (call failingEnv (buildSfnUpdateOperatorResources failingEnv 0)
            sampleMachine).2.s.instance_ =
          UpdateStateFromErr sampleKeda ConditionTypeInstalled
            ConditionReasonDeploymentUpdateErr e :=
  ⟨by simp [call, buildSfnUpdateOperatorResources, buildSfnUpdateObject, sFnUpdateObject,
      operatorResources, sampleMachine, sampleKeda, updateObj, sampleEnv, sampleResources,
      sampleFsm, sampleOperator, switchState],
    (C12_cr_changes_only_on_failure sampleEnv (buildSfnUpdateOperatorResources sampleEnv 0)
      sampleMachine (Or.inr (Or.inr ⟨_, _, _, _, _, rfl⟩))).1
      (by simp [call, buildSfnUpdateOperatorResources, buildSfnUpdateObject, sFnUpdateObject,
        operatorResources, sampleMachine, sampleKeda, updateObj, sampleEnv, sampleResources,
        sampleFsm, sampleOperator, switchState]),
    rfl,
    (C12_cr_changes_only_on_failure failingEnv (buildSfnUpdateOperatorResources failingEnv 0)
      sampleMachine (Or.inr (Or.inr ⟨_, _, _, _, _, rfl⟩))).2.1 rfl⟩

end KedaManager
